import Mathlib

/-!
# SBI v0.1 call dispatcher of the RISC-V KVM port (`arch/riscv/kvm/vcpu_sbi.c`)

A shallow embedding of `kvm_riscv_vcpu_sbi_forward`, `kvm_riscv_vcpu_sbi_return`,
`kvm_sbi_system_shutdown` and `kvm_riscv_vcpu_sbi_ecall` (the `CONFIG_RISCV_SBI_V01`
variant), followed by theorems about them.

Conventions of the embedding

* `unsigned long` values are natural numbers; arithmetic that can overflow is reduced
  modulo `2 ^ xlen` (`u64` arithmetic modulo `2 ^ 64`) at the place where the C code
  computes it.
* A `struct kvm_vcpu *` is an index into the `vcpus` collection of the VM; the result of
  `kvm_get_vcpu_by_id` is an `Option` of such an index and `none` is the `NULL` pointer.
  Dereferencing `NULL` is the fault `Fault.null_vcpu`.
* Calls into subsystems that are not part of this file (timer, trap redirection, remote
  fences, CSR writes, the debug hooks) are appended to a log of `Effect`s, in program
  order.  What those subsystems do internally is outside the embedding.
* The embedding is sequential: one call runs from start to end on a snapshot of the VM.
-/

namespace VcpuSbi

/-! ## Constants from headers that are not part of the sources -/

/-- Modelled from the spec: `asm/sbi.h` is missing; legacy SBI v0.1 extension id of
set-timer (the ids are the external SBI ABI). -/
def SBI_EXT_0_1_SET_TIMER : Nat := 0
/-- Modelled from the spec: `asm/sbi.h` is missing; legacy id of console-putchar. -/
def SBI_EXT_0_1_CONSOLE_PUTCHAR : Nat := 1
/-- Modelled from the spec: `asm/sbi.h` is missing; legacy id of console-getchar. -/
def SBI_EXT_0_1_CONSOLE_GETCHAR : Nat := 2
/-- Modelled from the spec: `asm/sbi.h` is missing; legacy id of clear-IPI. -/
def SBI_EXT_0_1_CLEAR_IPI : Nat := 3
/-- Modelled from the spec: `asm/sbi.h` is missing; legacy id of send-IPI. -/
def SBI_EXT_0_1_SEND_IPI : Nat := 4
/-- Modelled from the spec: `asm/sbi.h` is missing; legacy id of remote-fence-I. -/
def SBI_EXT_0_1_REMOTE_FENCE_I : Nat := 5
/-- Modelled from the spec: `asm/sbi.h` is missing; legacy id of remote-fence-VMA. -/
def SBI_EXT_0_1_REMOTE_SFENCE_VMA : Nat := 6
/-- Modelled from the spec: `asm/sbi.h` is missing; legacy id of
remote-fence-VMA-with-ASID. -/
def SBI_EXT_0_1_REMOTE_SFENCE_VMA_ASID : Nat := 7
/-- Modelled from the spec: `asm/sbi.h` is missing; legacy id of shutdown. -/
def SBI_EXT_0_1_SHUTDOWN : Nat := 8

/-- Test hook ids, `#define`d in the source file itself. -/
def SBI_TEST_TIMING_START : Nat := 0xC200000
def SBI_TEST_TIMING_END : Nat := 0xC200001
def SBI_TEST_LOCAL_SBI : Nat := 0xC200002
def SBI_TEST_SEND_PRINT : Nat := 0xC200003
def SBI_TEST_RECV_PRINT : Nat := 0xC200004

/-- Modelled from the spec: `asm/sbi.h` is missing; the "not supported" sentinel, a
negative `int` that the code stores into an `unsigned long` register. -/
def SBI_ERR_NOT_SUPPORTED : Int := -2

/-- Modelled from the spec: `linux/kvm.h` is missing; exit reason of the generic
SBI exit-to-monitor. -/
def KVM_EXIT_RISCV_SBI : Nat := 35
/-- Modelled from the spec: `linux/kvm.h` is missing; exit reason of a system event. -/
def KVM_EXIT_SYSTEM_EVENT : Nat := 24
/-- Modelled from the spec: `linux/kvm.h` is missing; system-event kind "shutdown". -/
def KVM_SYSTEM_EVENT_SHUTDOWN : Nat := 1

/-- Modelled from the spec: `asm/csr.h` is missing; number of the VS-level software
interrupt. -/
def IRQ_VS_SOFT : Nat := 2
/-- Modelled from the spec: `asm/csr.h` is missing; number of the VS-level external
interrupt. -/
def IRQ_VS_EXT : Nat := 10
/-- Modelled from the spec: `asm/csr.h` is missing; address of the `vsip` CSR. -/
def CSR_VSIP : Nat := 0x244
/-- Modelled from the spec: `asm/kvm_host.h` is missing; bit of the sleep request in
the per-vCPU request word. -/
def KVM_REQ_SLEEP : Nat := 8

/-- Build parameters which the source takes from its environment. -/
structure Config where
  /-- The value of `__riscv_xlen`, which is also `BITS_PER_LONG`. -/
  xlen : Nat
  /-- The id `SBI_EXT_0_1_DEBUG_START`, declared in a header not part of the sources. -/
  SBI_EXT_0_1_DEBUG_START : Nat
  /-- The id `SBI_EXT_0_1_DEBUG_END`, declared in a header not part of the sources. -/
  SBI_EXT_0_1_DEBUG_END : Nat
  /-- The table behind `cpuid_to_hartid_map`. -/
  cpuid_to_hartid_map : Nat → Nat

/-- Conversion of a C `int` to `unsigned long`. -/
def to_ulong (cfg : Config) (x : Int) : Nat := (x % (2 ^ cfg.xlen : Int)).toNat

/-- Addition on `unsigned long`. -/
def ulong_add (cfg : Config) (x y : Nat) : Nat := (x + y) % 2 ^ cfg.xlen

/-! ## Data model -/

/-- The members of `struct kvm_cpu_context` that the file names, and the remaining
members (`ra`, `sp`, ..., `sstatus`, `hstatus`, `fp`) kept together in `rest`. -/
structure kvm_cpu_context where
  a0 : Nat
  a1 : Nat
  a2 : Nat
  a3 : Nat
  a4 : Nat
  a5 : Nat
  a6 : Nat
  a7 : Nat
  sepc : Nat
  rest : List Nat
  deriving DecidableEq

/-- The member of `struct kvm_sbi_context` used here. -/
structure kvm_sbi_context where
  return_handled : Int
  deriving DecidableEq

/-- The members of `struct kvm_vcpu_arch` used here.  `irqs_pending` is a bitmap indexed
by interrupt number. -/
structure kvm_vcpu_arch where
  guest_context : kvm_cpu_context
  sbi_context : kvm_sbi_context
  power_off : Bool
  irqs_pending : Nat
  deriving DecidableEq

/-- The member of `struct kvm_vcpu_stat` used here (a `u64`). -/
structure kvm_vcpu_stat where
  ecall_exit_stat : Nat
  deriving DecidableEq

/-- The members of `struct kvm_vcpu` used here.  `cpu` is the physical CPU the vCPU is
loaded on, negative when it is not loaded; `requests` is the bitmap of pending requests. -/
structure kvm_vcpu where
  vcpu_id : Nat
  cpu : Int
  requests : Nat
  arch : kvm_vcpu_arch
  stat : kvm_vcpu_stat
  deriving DecidableEq

/-- The members of `struct kvm` used here: the created vCPUs in creation order and the
counter `online_vcpus`. -/
structure kvm where
  vcpus : List kvm_vcpu
  online_vcpus : Nat
  deriving DecidableEq

/-- The `riscv_sbi` member of `struct kvm_run`. -/
structure kvm_run_riscv_sbi where
  extension_id : Nat
  function_id : Nat
  args_0 : Nat
  args_1 : Nat
  args_2 : Nat
  args_3 : Nat
  args_4 : Nat
  args_5 : Nat
  ret_0 : Nat
  ret_1 : Nat
  deriving DecidableEq

/-- The `system_event` member of `struct kvm_run`. -/
structure kvm_run_system_event where
  type : Nat
  flags : Nat
  deriving DecidableEq

/-- The members of `struct kvm_run` used here.  The two exit payloads are kept as
separate members; that they share storage in C is not represented. -/
structure kvm_run where
  exit_reason : Nat
  riscv_sbi : kvm_run_riscv_sbi
  system_event : kvm_run_system_event
  deriving DecidableEq

/-- The trap descriptor `struct kvm_cpu_trap`. -/
structure kvm_cpu_trap where
  sepc : Nat
  scause : Nat
  stval : Nat
  htval : Nat
  htinst : Nat
  deriving DecidableEq

/-- The initialiser `{ 0 }` of a trap descriptor. -/
def kvm_cpu_trap.zero : kvm_cpu_trap := ⟨0, 0, 0, 0, 0⟩

/-- A `struct cpumask`, as the set of CPU numbers whose bit is set. -/
abbrev cpumask := Finset Nat

/-- Calls and stores that leave this file, with the arguments they are given.  A vCPU
argument is the index of that vCPU in the VM. -/
inductive Effect where
  /-- The call `kvm_riscv_vcpu_timer_next_event(vcpu, ncycles)`. -/
  | kvm_riscv_vcpu_timer_next_event (vcpu : Nat) (ncycles : Nat)
  /-- The call `kvm_riscv_vcpu_trap_redirect(vcpu, &trap)`. -/
  | kvm_riscv_vcpu_trap_redirect (vcpu : Nat) (trap : kvm_cpu_trap)
  /-- The call `sbi_remote_fence_i(hart_mask)`. -/
  | sbi_remote_fence_i (hart_mask : cpumask)
  /-- The call `sbi_remote_hfence_vvma(hart_mask, start, size)`. -/
  | sbi_remote_hfence_vvma (hart_mask : cpumask) (start : Nat) (size : Nat)
  /-- The call `sbi_remote_hfence_vvma_asid(hart_mask, start, size, asid)`. -/
  | sbi_remote_hfence_vvma_asid (hart_mask : cpumask) (start : Nat) (size : Nat)
      (asid : Nat)
  /-- The store `csr_write(csr, val)`. -/
  | csr_write (csr : Nat) (val : Nat)
  /-- The body of `case SBI_EXT_0_1_DEBUG_START`: the counters `cause_cnt`, `cause_time`
  are zeroed and `stat_vmexit` is set. -/
  | debug_start
  /-- The body of `case SBI_EXT_0_1_DEBUG_END`: `stat_vmexit` is cleared and the counters
  are printed. -/
  | debug_end
  /-- The body of `case SBI_TEST_TIMING_START`: a message is printed and the cycle counter
  is saved in `start_cycle`. -/
  | test_timing_start
  /-- The body of `case SBI_TEST_TIMING_END`: the cycle counter is saved in `end_cycle`
  and the difference is printed. -/
  | test_timing_end
  /-- The message printed by `case SBI_TEST_SEND_PRINT`. -/
  | test_send_print (a0 a1 a2 a3 : Nat)
  /-- The message printed by `case SBI_TEST_RECV_PRINT`. -/
  | test_recv_print (a0 a1 a2 a3 : Nat)
  /-- The store `vplic_sm[index] = val`. -/
  | vplic_sm_store (index : Nat) (val : Nat)
  /-- The start of a kernel thread running `vplic_thread` for `vcpu`. -/
  | vplic_thread_start (vcpu : Nat)
  deriving DecidableEq

/-- Ways in which a run of the C code can go wrong. -/
inductive Fault where
  /-- A `NULL` vCPU pointer is dereferenced. -/
  | null_vcpu
  /-- The caller index does not name a vCPU of the VM (excluded by the C types). -/
  | bad_caller
  deriving DecidableEq

/-- Everything a dispatcher call can read or write: the VM, the `kvm_run` area of the
calling vCPU, and the log of outgoing calls. -/
structure Machine where
  kvm : kvm
  run : kvm_run
  log : List Effect
  deriving DecidableEq

/-- The guest-memory read `kvm_riscv_vcpu_unpriv_read(vcpu, false, addr, &utrap)` for a
trap descriptor that starts out all zero: the value returned and the descriptor after
the call (`scause` nonzero exactly when the read faulted). -/
abbrev unpriv_read_fn := kvm_vcpu → Nat → Nat × kvm_cpu_trap

/-! ## Forward / return bridge -/

/-- Embedding of `kvm_riscv_vcpu_sbi_forward`. -/
def kvm_riscv_vcpu_sbi_forward (vcpu : kvm_vcpu) (run : kvm_run) : kvm_vcpu × kvm_run :=
  let cp := vcpu.arch.guest_context
  ({ vcpu with
      arch := { vcpu.arch with sbi_context := { return_handled := 0 } }
      stat := { ecall_exit_stat := (vcpu.stat.ecall_exit_stat + 1) % 2 ^ 64 } },
   { run with
      exit_reason := KVM_EXIT_RISCV_SBI
      riscv_sbi :=
        { extension_id := cp.a7
          function_id := cp.a6
          args_0 := cp.a0
          args_1 := cp.a1
          args_2 := cp.a2
          args_3 := cp.a3
          args_4 := cp.a4
          args_5 := cp.a5
          ret_0 := cp.a0
          ret_1 := cp.a1 } })

/-- Embedding of `kvm_riscv_vcpu_sbi_return`: the status and the vCPU afterwards. -/
def kvm_riscv_vcpu_sbi_return (cfg : Config) (vcpu : kvm_vcpu) (run : kvm_run) :
    Int × kvm_vcpu :=
  if vcpu.arch.sbi_context.return_handled ≠ 0 then
    (0, vcpu)
  else
    (0, { vcpu with
      arch := { vcpu.arch with
        sbi_context := { return_handled := 1 }
        guest_context := { vcpu.arch.guest_context with
          a0 := run.riscv_sbi.ret_0
          a1 := run.riscv_sbi.ret_1
          sepc := ulong_add cfg vcpu.arch.guest_context.sepc 4 } } })

/-! ## Helpers of the VM that are not part of the sources -/

/-- Modelled from the spec: the macro `kvm_for_each_vcpu` is missing; it visits the
vCPUs of the VM in order, as many as `online_vcpus` counts.  Here the loop body `f`
updates the visited vCPU. -/
def kvm_for_each_vcpu (k : kvm) (f : kvm_vcpu → kvm_vcpu) : kvm :=
  { k with vcpus := (k.vcpus.take k.online_vcpus).map f ++ k.vcpus.drop k.online_vcpus }

/-- Position of the first vCPU with logical id `id` in a list of vCPUs. -/
def find_vcpu_by_id (id : Nat) : List kvm_vcpu → Option Nat
  | [] => none
  | v :: vs => if v.vcpu_id = id then some 0 else (find_vcpu_by_id id vs).map (· + 1)

/-- Modelled from the spec: `kvm_get_vcpu_by_id` is missing; it resolves a logical hart
id to the online vCPU carrying that id, or to `NULL` when there is none. -/
def kvm_get_vcpu_by_id (k : kvm) (id : Nat) : Option Nat :=
  find_vcpu_by_id id (k.vcpus.take k.online_vcpus)

/-- Reading through a vCPU pointer: `NULL` faults. -/
def deref (k : kvm) (p : Option Nat) : Except Fault kvm_vcpu :=
  match p with
  | none => .error .null_vcpu
  | some r =>
    match k.vcpus[r]? with
    | none => .error .null_vcpu
    | some v => .ok v

/-- Writing through a valid vCPU pointer. -/
def store (k : kvm) (r : Nat) (v : kvm_vcpu) : kvm :=
  { k with vcpus := k.vcpus.set r v }

/-- Setting bit `nr` of a bitmap word. -/
def set_bit (nr : Nat) (word : Nat) : Nat := word ||| (1 <<< nr)

/-- Clearing bit `nr` of a bitmap word (the bit is removed if present). -/
def clear_bit (nr : Nat) (word : Nat) : Nat := word ^^^ (word &&& (1 <<< nr))

/-- The pending flag of interrupt `irq` set on a vCPU. -/
def set_interrupt (irq : Nat) (v : kvm_vcpu) : kvm_vcpu :=
  { v with arch := { v.arch with irqs_pending := set_bit irq v.arch.irqs_pending } }

/-- The pending flag of interrupt `irq` cleared on a vCPU. -/
def unset_interrupt (irq : Nat) (v : kvm_vcpu) : kvm_vcpu :=
  { v with arch := { v.arch with irqs_pending := clear_bit irq v.arch.irqs_pending } }

/-- Modelled from the spec: `kvm_riscv_vcpu_set_interrupt` is missing; it sets the
pending flag of `irq` on the vCPU it is handed.  It reads and writes through the pointer
without testing it, so `NULL` faults. -/
def kvm_riscv_vcpu_set_interrupt (k : kvm) (p : Option Nat) (irq : Nat) :
    Except Fault kvm :=
  match p, deref k p with
  | some r, .ok v => .ok (store k r (set_interrupt irq v))
  | _, _ => .error .null_vcpu

/-- Modelled from the spec: `kvm_riscv_vcpu_unset_interrupt` is missing; it clears the
pending flag of `irq` on the (valid) vCPU at index `r`. -/
def kvm_riscv_vcpu_unset_interrupt (k : kvm) (r : Nat) (irq : Nat) : kvm :=
  match k.vcpus[r]? with
  | some v => store k r (unset_interrupt irq v)
  | none => k

/-- Modelled from the spec: `kvm_make_all_cpus_request` is missing; it posts request
`req` to every vCPU of the VM. -/
def kvm_make_all_cpus_request (k : kvm) (req : Nat) : kvm :=
  kvm_for_each_vcpu k (fun v => { v with requests := set_bit req v.requests })

/-- Modelled from the spec: the macro `for_each_set_bit` is missing; the positions below
`size` at which `word` has a set bit, in increasing order. -/
def for_each_set_bit (word : Nat) (size : Nat) : List Nat :=
  (List.range size).filter (fun i => word.testBit i)

/-- Modelled from the spec: `riscv_cpuid_to_hartid_mask` is missing; it translates a
set of CPU numbers into the set of their hart ids. -/
def riscv_cpuid_to_hartid_mask (cfg : Config) (cm : cpumask) : cpumask :=
  cm.image cfg.cpuid_to_hartid_map

/-! ## Shutdown -/

/-- Embedding of `kvm_sbi_system_shutdown`. -/
def kvm_sbi_system_shutdown (k : kvm) (run : kvm_run) (type : Nat) : kvm × kvm_run :=
  let k1 := kvm_for_each_vcpu k
    (fun tmp => { tmp with arch := { tmp.arch with power_off := true } })
  let k2 := kvm_make_all_cpus_request k1 KVM_REQ_SLEEP
  (k2, { run with
          system_event := { type := type % 2 ^ 32, flags := 0 }
          exit_reason := KVM_EXIT_SYSTEM_EVENT })

/-! ## The dispatcher -/

/-- The hart mask of a send-IPI or remote-fence call and the trap descriptor after
resolving it: read from guest memory when `a0` is nonzero, else one bit per online
vCPU.  For the shift `1UL << n` the count is taken modulo the word width, as the
shift instruction does. -/
def resolve_hmask (cfg : Config) (read : unpriv_read_fn) (k : kvm) (vcpu : kvm_vcpu) :
    Nat × kvm_cpu_trap :=
  if vcpu.arch.guest_context.a0 ≠ 0 then
    read vcpu vcpu.arch.guest_context.a0
  else
    ((1 <<< (k.online_vcpus % cfg.xlen)) - 1, kvm_cpu_trap.zero)

/-- The send-IPI loop over the set bits of the hart mask. -/
def send_ipi_loop : List Nat → kvm → Except Fault kvm
  | [], k => .ok k
  | i :: rest, k =>
    match kvm_riscv_vcpu_set_interrupt k (kvm_get_vcpu_by_id k i) IRQ_VS_SOFT with
    | .ok k1 => send_ipi_loop rest k1
    | .error e => .error e

/-- The remote-fence loop over the set bits of the hart mask, collecting the physical
CPUs of the targets that are loaded. -/
def fence_loop (k : kvm) : List Nat → cpumask → Except Fault cpumask
  | [], cm => .ok cm
  | i :: rest, cm =>
    match deref k (kvm_get_vcpu_by_id k i) with
    | .ok rvcpu =>
      if rvcpu.cpu < 0 then fence_loop k rest cm
      else fence_loop k rest (insert rvcpu.cpu.toNat cm)
    | .error e => .error e

/-- The fence request selected by `a7` in the remote-fence case. -/
def fence_request (cp : kvm_cpu_context) (hm : cpumask) : Effect :=
  if cp.a7 = SBI_EXT_0_1_REMOTE_FENCE_I then
    .sbi_remote_fence_i hm
  else if cp.a7 = SBI_EXT_0_1_REMOTE_SFENCE_VMA then
    .sbi_remote_hfence_vvma hm cp.a1 cp.a2
  else
    .sbi_remote_hfence_vvma_asid hm cp.a1 cp.a2 cp.a3

/-- The argument of set-timer as the `u64` next-event value. -/
def set_timer_next_cycle (cfg : Config) (cp : kvm_cpu_context) : Nat :=
  if cfg.xlen = 32 then
    (((cp.a1 % 2 ^ 64) <<< 32) % 2 ^ 64) ||| (cp.a0 % 2 ^ 64)
  else
    cp.a0 % 2 ^ 64

/-- What the `switch` of `kvm_riscv_vcpu_sbi_ecall` leaves behind: the machine, the
local `next_sepc` and the local `ret`. -/
structure switch_result where
  m : Machine
  next_sepc : Bool
  ret : Int
  deriving DecidableEq

/-- The `switch (cp->a7)` of `kvm_riscv_vcpu_sbi_ecall`, the cases in source order, for
the calling vCPU `vcpu` at index `self`. -/
def sbi_ecall_switch (cfg : Config) (read : unpriv_read_fn) (m : Machine) (self : Nat)
    (vcpu : kvm_vcpu) : Except Fault switch_result :=
  let cp := vcpu.arch.guest_context
  if cp.a7 = SBI_EXT_0_1_CONSOLE_GETCHAR ∨ cp.a7 = SBI_EXT_0_1_CONSOLE_PUTCHAR then
    let fr := kvm_riscv_vcpu_sbi_forward vcpu m.run
    .ok ⟨{ m with kvm := store m.kvm self fr.1, run := fr.2 }, false, 0⟩
  else if cp.a7 = SBI_EXT_0_1_SET_TIMER then
    .ok ⟨{ m with log := m.log ++
      [.kvm_riscv_vcpu_timer_next_event self (set_timer_next_cycle cfg cp)] }, true, 1⟩
  else if cp.a7 = SBI_EXT_0_1_CLEAR_IPI then
    .ok ⟨{ m with
      kvm := kvm_riscv_vcpu_unset_interrupt m.kvm self IRQ_VS_EXT
      log := m.log ++ [.csr_write CSR_VSIP 0] }, true, 1⟩
  else if cp.a7 = SBI_EXT_0_1_SEND_IPI then
    let r := resolve_hmask cfg read m.kvm vcpu
    if r.2.scause ≠ 0 then
      .ok ⟨{ m with log := m.log ++
        [.kvm_riscv_vcpu_trap_redirect self { r.2 with sepc := cp.sepc }] }, false, 1⟩
    else
      match send_ipi_loop (for_each_set_bit r.1 cfg.xlen) m.kvm with
      | .ok k1 => .ok ⟨{ m with kvm := k1 }, true, 1⟩
      | .error e => .error e
  else if cp.a7 = SBI_EXT_0_1_SHUTDOWN then
    let sr := kvm_sbi_system_shutdown m.kvm m.run KVM_SYSTEM_EVENT_SHUTDOWN
    .ok ⟨{ m with kvm := sr.1, run := sr.2 }, false, 0⟩
  else if cp.a7 = SBI_EXT_0_1_REMOTE_FENCE_I ∨ cp.a7 = SBI_EXT_0_1_REMOTE_SFENCE_VMA ∨
      cp.a7 = SBI_EXT_0_1_REMOTE_SFENCE_VMA_ASID then
    let r := resolve_hmask cfg read m.kvm vcpu
    if r.2.scause ≠ 0 then
      .ok ⟨{ m with log := m.log ++
        [.kvm_riscv_vcpu_trap_redirect self { r.2 with sepc := cp.sepc }] }, false, 1⟩
    else
      match fence_loop m.kvm (for_each_set_bit r.1 cfg.xlen) ∅ with
      | .ok cm =>
        .ok ⟨{ m with log := m.log ++
          [fence_request cp (riscv_cpuid_to_hartid_mask cfg cm)] }, true, 1⟩
      | .error e => .error e
  else if cp.a7 = cfg.SBI_EXT_0_1_DEBUG_START then
    .ok ⟨{ m with log := m.log ++ [.debug_start] }, true, 1⟩
  else if cp.a7 = cfg.SBI_EXT_0_1_DEBUG_END then
    .ok ⟨{ m with log := m.log ++ [.debug_end] }, true, 1⟩
  else if cp.a7 = SBI_TEST_TIMING_START then
    .ok ⟨{ m with log := m.log ++ [.test_timing_start] }, true, 1⟩
  else if cp.a7 = SBI_TEST_TIMING_END then
    .ok ⟨{ m with log := m.log ++ [.test_timing_end] }, true, 1⟩
  else if cp.a7 = SBI_TEST_SEND_PRINT then
    .ok ⟨{ m with log := m.log ++ [.test_send_print cp.a0 cp.a1 cp.a2 cp.a3] }, true, 1⟩
  else if cp.a7 = SBI_TEST_RECV_PRINT then
    .ok ⟨{ m with log := m.log ++
      [.test_recv_print cp.a0 cp.a1 cp.a2 cp.a3, .csr_write CSR_VSIP 0] }, true, 1⟩
  else if cp.a7 = SBI_TEST_LOCAL_SBI then
    .ok ⟨{ m with
      kvm := kvm_riscv_vcpu_unset_interrupt m.kvm self IRQ_VS_EXT
      log := m.log ++
        [.vplic_sm_store 0 0, .csr_write CSR_VSIP 0, .vplic_thread_start self] }, true, 1⟩
  else
    let vcpu1 : kvm_vcpu := { vcpu with arch := { vcpu.arch with
      guest_context := { cp with a0 := to_ulong cfg SBI_ERR_NOT_SUPPORTED } } }
    .ok ⟨{ m with kvm := store m.kvm self vcpu1 }, true, 1⟩

/-- The tail of `kvm_riscv_vcpu_sbi_ecall`: `if (next_sepc) cp->sepc += 4;`. -/
def advance_sepc (cfg : Config) (k : kvm) (self : Nat) : kvm :=
  match k.vcpus[self]? with
  | some v =>
    store k self { v with arch := { v.arch with
      guest_context := { v.arch.guest_context with
        sepc := ulong_add cfg v.arch.guest_context.sepc 4 } } }
  | none => k

/-- Embedding of `kvm_riscv_vcpu_sbi_ecall` (the `CONFIG_RISCV_SBI_V01` variant) for the
vCPU at index `self`: the status returned and the machine afterwards, or the fault the
run ends in.  The test `if (!cp)` of the source never fires, `cp` being the address of a
member. -/
def kvm_riscv_vcpu_sbi_ecall (cfg : Config) (read : unpriv_read_fn) (m : Machine)
    (self : Nat) : Except Fault (Int × Machine) :=
  match m.kvm.vcpus[self]? with
  | none => .error .bad_caller
  | some vcpu =>
    match sbi_ecall_switch cfg read m self vcpu with
    | .error e => .error e
    | .ok r =>
      if r.next_sepc then
        .ok (r.ret, { r.m with kvm := advance_sepc cfg r.m.kvm self })
      else
        .ok (r.ret, r.m)

/-! ## Sets of extension ids -/

/-- The nine legacy extension ids. -/
def legacy_extension_ids : List Nat :=
  [SBI_EXT_0_1_CONSOLE_GETCHAR, SBI_EXT_0_1_CONSOLE_PUTCHAR, SBI_EXT_0_1_SET_TIMER,
   SBI_EXT_0_1_CLEAR_IPI, SBI_EXT_0_1_SEND_IPI, SBI_EXT_0_1_SHUTDOWN,
   SBI_EXT_0_1_REMOTE_FENCE_I, SBI_EXT_0_1_REMOTE_SFENCE_VMA,
   SBI_EXT_0_1_REMOTE_SFENCE_VMA_ASID]

/-- The seven further ids that have a `case` of their own in the `switch`. -/
def debug_extension_ids (cfg : Config) : List Nat :=
  [cfg.SBI_EXT_0_1_DEBUG_START, cfg.SBI_EXT_0_1_DEBUG_END, SBI_TEST_TIMING_START,
   SBI_TEST_TIMING_END, SBI_TEST_SEND_PRINT, SBI_TEST_RECV_PRINT, SBI_TEST_LOCAL_SBI]

/-! ## Shapes of the state after a call -/

/-- The vCPU `v` with `a0` replaced and nothing else changed. -/
def kvm_vcpu.set_a0 (v : kvm_vcpu) (x : Nat) : kvm_vcpu :=
  { v with arch := { v.arch with guest_context := { v.arch.guest_context with a0 := x } } }

/-- The vCPU `v` with `sepc` replaced and nothing else changed. -/
def kvm_vcpu.set_sepc (v : kvm_vcpu) (x : Nat) : kvm_vcpu :=
  { v with arch := { v.arch with guest_context := { v.arch.guest_context with sepc := x } } }

/-- The vCPU `v` after `sepc += 4` on `unsigned long`, nothing else changed. -/
def kvm_vcpu.next_sepc (cfg : Config) (v : kvm_vcpu) : kvm_vcpu :=
  v.set_sepc ((v.arch.guest_context.sepc + 4) % 2 ^ cfg.xlen)

/-- The vCPU `v` with `a7` replaced and nothing else changed: the guest has loaded the
id of its next call. -/
def kvm_vcpu.set_a7 (v : kvm_vcpu) (x : Nat) : kvm_vcpu :=
  { v with arch := { v.arch with guest_context := { v.arch.guest_context with a7 := x } } }

/-- The vCPU `v` with its register context replaced: the guest has run up to its next
`ecall`. -/
def kvm_vcpu.set_guest_context (v : kvm_vcpu) (cp : kvm_cpu_context) : kvm_vcpu :=
  { v with arch := { v.arch with guest_context := cp } }

/-- The vCPU `v` with the power-off flag set and the sleep request posted, nothing else
changed. -/
def kvm_vcpu.powered_off (v : kvm_vcpu) : kvm_vcpu :=
  { v with
    requests := set_bit KVM_REQ_SLEEP v.requests
    arch := { v.arch with power_off := true } }

/-- The exit record `run` turned into the system-event exit of kind `type`. -/
def kvm_run.system_event_exit (run : kvm_run) (type : Nat) : kvm_run :=
  { run with
    system_event := { type := type, flags := 0 }
    exit_reason := KVM_EXIT_SYSTEM_EVENT }

/-! ## Sequences of traps and completions on one vCPU -/

/-- One event in the life of a vCPU as this file sees it: the guest executes an `ecall`
with the register context `cp` (reads of guest memory during the call are answered by
`read`), or the completion of a forwarded call arrives with the exit record `run`. -/
inductive Step where
  | trap (cp : kvm_cpu_context) (read : unpriv_read_fn)
  | completion (run : kvm_run)

/-- Whether a step is a trap that the dispatcher forwards (a console call). -/
def Step.is_forward : Step → Bool
  | .trap cp _ =>
    decide (cp.a7 = SBI_EXT_0_1_CONSOLE_GETCHAR ∨ cp.a7 = SBI_EXT_0_1_CONSOLE_PUTCHAR)
  | .completion _ => false

/-- Runs a sequence of steps of the vCPU at index `self`: a trap goes through
`kvm_riscv_vcpu_sbi_ecall`, a completion through `kvm_riscv_vcpu_sbi_return`.  The
result is the machine afterwards and the number of completions that found the
return-applied flag clear, which are the ones that write the results. -/
def run_steps (cfg : Config) (self : Nat) : List Step → Machine → Except Fault (Machine × Nat)
  | [], m => .ok (m, 0)
  | .trap cp read :: rest, m =>
    match m.kvm.vcpus[self]? with
    | none => .error .bad_caller
    | some v =>
      match kvm_riscv_vcpu_sbi_ecall cfg read
          { m with kvm := store m.kvm self (v.set_guest_context cp) } self with
      | .error e => .error e
      | .ok r => run_steps cfg self rest r.2
  | .completion run :: rest, m =>
    match m.kvm.vcpus[self]? with
    | none => .error .bad_caller
    | some v =>
      match run_steps cfg self rest
          { m with kvm := store m.kvm self (kvm_riscv_vcpu_sbi_return cfg v run).2 } with
      | .error e => .error e
      | .ok r => .ok (r.1, r.2 + (if v.arch.sbi_context.return_handled = 0 then 1 else 0))

/-! ## Concrete machines for the examples -/

/-- A 64-bit build.  The numbers of the two debug ids are not known from the sources;
the values here are stand-ins.  CPU numbers and hart ids coincide. -/
def ex_cfg64 : Config := ⟨64, 0xC100000, 0xC100001, fun c => c⟩

/-- A 32-bit build, otherwise as `ex_cfg64`. -/
def ex_cfg32 : Config := ⟨32, 0xC100000, 0xC100001, fun c => c⟩

/-- A vCPU with logical id `id`, loaded on `cpu`, about to execute the call `a7` with
first argument `a0`; the other argument registers hold 11 .. 16, `sepc` is `0x1000`,
no interrupt is pending and an earlier forwarded call has been completed. -/
def ex_vcpu (id : Nat) (cpu : Int) (a0 a7 : Nat) : kvm_vcpu :=
  { vcpu_id := id
    cpu := cpu
    requests := 0
    arch :=
      { guest_context :=
          { a0 := a0, a1 := 11, a2 := 12, a3 := 13, a4 := 14, a5 := 15, a6 := 16,
            a7 := a7, sepc := 0x1000, rest := [] }
        sbi_context := { return_handled := 1 }
        power_off := false
        irqs_pending := 0 }
    stat := { ecall_exit_stat := 0 } }

/-- An exit record with result words `r0`, `r1` and nothing else. -/
def ex_run (r0 r1 : Nat) : kvm_run :=
  { exit_reason := 0
    riscv_sbi :=
      { extension_id := 0, function_id := 0, args_0 := 0, args_1 := 0, args_2 := 0,
        args_3 := 0, args_4 := 0, args_5 := 0, ret_0 := r0, ret_1 := r1 }
    system_event := { type := 0, flags := 0 } }

/-- Guest memory in which every read succeeds and yields `word`. -/
def ex_read_ok (word : Nat) : unpriv_read_fn := fun _ _ => (word, kvm_cpu_trap.zero)

/-- Guest memory in which every read faults with cause `scause`. -/
def ex_read_fault (scause : Nat) : unpriv_read_fn :=
  fun _ a => (0, { kvm_cpu_trap.zero with scause := scause, stval := a })

/-- A VM with one vCPU (id 0, loaded on CPU 3) which executes the call `a7` with first
argument `a0`. -/
def ex_machine1 (a0 a7 : Nat) : Machine :=
  { kvm := { vcpus := [ex_vcpu 0 3 a0 a7], online_vcpus := 1 }
    run := ex_run 0 0
    log := [] }

/-- A VM with two vCPUs: vCPU 0 (loaded on CPU 3) executes the call `a7` with first
argument `a0`; vCPU 1 is not loaded on any CPU. -/
def ex_machine2 (a0 a7 : Nat) : Machine :=
  { kvm := { vcpus := [ex_vcpu 0 3 a0 a7, ex_vcpu 1 (-1) 0 0], online_vcpus := 2 }
    run := ex_run 0 0
    log := [] }

/-- A vCPU with a forwarded call outstanding: like `ex_vcpu 0 3 65 1` but with the
return-applied flag clear. -/
def ex_vcpu_pending : kvm_vcpu :=
  { ex_vcpu 0 3 65 SBI_EXT_0_1_CONSOLE_PUTCHAR with
    arch := { (ex_vcpu 0 3 65 SBI_EXT_0_1_CONSOLE_PUTCHAR).arch with
      sbi_context := { return_handled := 0 } } }

/-- A vCPU of a 32-bit guest about to call set-timer with `a0 = 0x00000001` and
`a1 = 0x00000002`. -/
def ex_vcpu_timer : kvm_vcpu :=
  { vcpu_id := 0
    cpu := 3
    requests := 0
    arch :=
      { guest_context :=
          { a0 := 0x00000001, a1 := 0x00000002, a2 := 0, a3 := 0, a4 := 0, a5 := 0,
            a6 := 0, a7 := SBI_EXT_0_1_SET_TIMER, sepc := 0x1000, rest := [] }
        sbi_context := { return_handled := 1 }
        power_off := false
        irqs_pending := 0 }
    stat := { ecall_exit_stat := 0 } }

/-- A VM whose only vCPU is `ex_vcpu_timer`. -/
def ex_machine_timer : Machine :=
  { kvm := { vcpus := [ex_vcpu_timer], online_vcpus := 1 }
    run := ex_run 0 0
    log := [] }

/-- A VM with two vCPUs: vCPU 0 is about to call console-putchar with the character 65,
vCPU 1 is about to call shutdown. -/
def ex_machine_putchar_shutdown : Machine :=
  { kvm :=
      { vcpus := [ex_vcpu 0 3 65 SBI_EXT_0_1_CONSOLE_PUTCHAR,
                  ex_vcpu 1 2 0 SBI_EXT_0_1_SHUTDOWN]
        online_vcpus := 2 }
    run := ex_run 0 0
    log := [] }

/-- A powered-off vCPU with a forwarded call outstanding. -/
def ex_vcpu_pending_off : kvm_vcpu := ex_vcpu_pending.powered_off

/-- A pending vCPU alone in a VM. -/
def ex_machine_pending : Machine :=
  { kvm := { vcpus := [ex_vcpu_pending], online_vcpus := 1 }
    run := ex_run 0 0
    log := [] }

/-! ## Basic facts about the helpers -/

theorem lt_length_of_getElem? {l : List kvm_vcpu} {i : Nat} {v : kvm_vcpu}
    (h : l[i]? = some v) : i < l.length := by
  rcases List.getElem?_eq_some.mp h with ⟨hl, _⟩
  exact hl

theorem store_getElem? (k : kvm) (r : Nat) (v : kvm_vcpu) (h : r < k.vcpus.length) :
    (store k r v).vcpus[r]? = some v := by
  simp [store, h]

theorem store_store (k : kvm) (r : Nat) (v w : kvm_vcpu) :
    store (store k r v) r w = store k r w := by
  simp [store]

theorem advance_sepc_store (cfg : Config) (k : kvm) (r : Nat) (v : kvm_vcpu)
    (h : r < k.vcpus.length) :
    advance_sepc cfg (store k r v) r = store k r (v.next_sepc cfg) := by
  simp [advance_sepc, store_getElem? k r v h, store_store, ulong_add, kvm_vcpu.next_sepc,
    kvm_vcpu.set_sepc]

theorem advance_sepc_of_getElem? (cfg : Config) (k : kvm) (r : Nat) (v : kvm_vcpu)
    (h : k.vcpus[r]? = some v) :
    advance_sepc cfg k r = store k r (v.next_sepc cfg) := by
  simp [advance_sepc, h, ulong_add, kvm_vcpu.next_sepc, kvm_vcpu.set_sepc]

theorem testBit_set_bit (nr word i : Nat) :
    (set_bit nr word).testBit i = (word.testBit i || decide (nr = i)) := by
  simp [set_bit, Nat.one_shiftLeft, Nat.testBit_two_pow]

theorem set_bit_idem (nr word : Nat) : set_bit nr (set_bit nr word) = set_bit nr word := by
  apply Nat.eq_of_testBit_eq
  intro i
  simp [testBit_set_bit]

theorem set_interrupt_idem (irq : Nat) (v : kvm_vcpu) :
    set_interrupt irq (set_interrupt irq v) = set_interrupt irq v := by
  simp [set_interrupt, set_bit_idem]

theorem mem_for_each_set_bit (word size i : Nat) :
    i ∈ for_each_set_bit word size ↔ i < size ∧ word.testBit i = true := by
  simp [for_each_set_bit, List.mem_range]

theorem find_vcpu_by_id_lt (id : Nat) (l : List kvm_vcpu) :
    ∀ r, find_vcpu_by_id id l = some r → r < l.length := by
  induction l with
  | nil => intro r h; simp [find_vcpu_by_id] at h
  | cons v vs ih =>
    intro r h
    by_cases hv : v.vcpu_id = id
    · simp [find_vcpu_by_id, hv] at h
      subst h
      simp
    · simp only [find_vcpu_by_id, hv, if_false, Option.map_eq_some'] at h
      obtain ⟨a, ha, rfl⟩ := h
      have := ih a ha
      simp only [List.length_cons]
      omega

theorem kvm_get_vcpu_by_id_lt {k : kvm} {i r : Nat} (h : kvm_get_vcpu_by_id k i = some r) :
    r < k.vcpus.length := by
  have h1 := find_vcpu_by_id_lt i _ r h
  have h2 : (k.vcpus.take k.online_vcpus).length ≤ k.vcpus.length := by
    simp [List.length_take]
  omega

theorem deref_kvm_get_vcpu_by_id {k : kvm} {i : Nat} (h : kvm_get_vcpu_by_id k i ≠ none) :
    ∃ r v, kvm_get_vcpu_by_id k i = some r ∧ k.vcpus[r]? = some v ∧
      deref k (kvm_get_vcpu_by_id k i) = .ok v := by
  cases hg : kvm_get_vcpu_by_id k i with
  | none => exact absurd hg h
  | some r =>
    have hr := kvm_get_vcpu_by_id_lt hg
    refine ⟨r, k.vcpus[r], rfl, by simp [hr], ?_⟩
    simp [deref, hr]

theorem kvm_for_each_vcpu_all_online (k : kvm) (f : kvm_vcpu → kvm_vcpu)
    (honline : k.online_vcpus = k.vcpus.length) :
    kvm_for_each_vcpu k f = { k with vcpus := k.vcpus.map f } := by
  simp [kvm_for_each_vcpu, honline]

/-! ## Forward / return bridge: theorems -/

/-- C1: completion is idempotent.  For a vCPU whose return-applied flag is clear and
any two exit records `r1`, `r2`, running `kvm_riscv_vcpu_sbi_return` with `r1` and then
with `r2` returns status 0 and the very vCPU state that the single run with `r1` left;
the second run changes nothing. -/
theorem sbi_return_idempotent (cfg : Config) (vcpu : kvm_vcpu) (r1 r2 : kvm_run)
    (h : vcpu.arch.sbi_context.return_handled = 0) :
    kvm_riscv_vcpu_sbi_return cfg (kvm_riscv_vcpu_sbi_return cfg vcpu r1).2 r2
      = (0, (kvm_riscv_vcpu_sbi_return cfg vcpu r1).2) := by
  simp [kvm_riscv_vcpu_sbi_return, h]

/-- Instance of C1: a pending vCPU completed with results (7, 8) and then with (9, 10)
on a 64-bit build. -/
theorem sbi_return_idempotent_witness :
    ex_vcpu_pending.arch.sbi_context.return_handled = 0 ∧
    kvm_riscv_vcpu_sbi_return ex_cfg64
        (kvm_riscv_vcpu_sbi_return ex_cfg64 ex_vcpu_pending (ex_run 7 8)).2 (ex_run 9 10)
      = (0, (kvm_riscv_vcpu_sbi_return ex_cfg64 ex_vcpu_pending (ex_run 7 8)).2) :=
  ⟨by decide, sbi_return_idempotent ex_cfg64 ex_vcpu_pending (ex_run 7 8) (ex_run 9 10)
    (by decide)⟩

/-- C2: a console call is forwarded and completed later.  When `a7` of the calling vCPU
is console-getchar or console-putchar, `kvm_riscv_vcpu_sbi_ecall` returns 0, the exit
reason is the SBI exit (which is not the system-event exit), the return-applied flag of
the caller is clear and its `sepc` is the trap-time `sepc`; a following
`kvm_riscv_vcpu_sbi_return` with any exit record returns 0, leaves `sepc` at the
trap-time `sepc` plus 4 (as an `unsigned long`) and `a0`, `a1` at the two result words
of that record. -/
theorem console_forward_then_return (cfg : Config) (read : unpriv_read_fn) (m : Machine)
    (self : Nat) (vcpu : kvm_vcpu)
    (hself : m.kvm.vcpus[self]? = some vcpu)
    (ha7 : vcpu.arch.guest_context.a7 = SBI_EXT_0_1_CONSOLE_GETCHAR ∨
      vcpu.arch.guest_context.a7 = SBI_EXT_0_1_CONSOLE_PUTCHAR) :
    ∃ m1 vcpu1,
      kvm_riscv_vcpu_sbi_ecall cfg read m self = .ok (0, m1) ∧
      m1.run.exit_reason = KVM_EXIT_RISCV_SBI ∧
      m1.run.exit_reason ≠ KVM_EXIT_SYSTEM_EVENT ∧
      m1.kvm.vcpus[self]? = some vcpu1 ∧
      vcpu1.arch.sbi_context.return_handled = 0 ∧
      vcpu1.arch.guest_context.sepc = vcpu.arch.guest_context.sepc ∧
      ∀ run : kvm_run,
        (kvm_riscv_vcpu_sbi_return cfg vcpu1 run).1 = 0 ∧
        (kvm_riscv_vcpu_sbi_return cfg vcpu1 run).2.arch.guest_context.sepc =
          (vcpu.arch.guest_context.sepc + 4) % 2 ^ cfg.xlen ∧
        (kvm_riscv_vcpu_sbi_return cfg vcpu1 run).2.arch.guest_context.a0 =
          run.riscv_sbi.ret_0 ∧
        (kvm_riscv_vcpu_sbi_return cfg vcpu1 run).2.arch.guest_context.a1 =
          run.riscv_sbi.ret_1 := by
  have hlt := lt_length_of_getElem? hself
  refine ⟨⟨store m.kvm self (kvm_riscv_vcpu_sbi_forward vcpu m.run).1,
    (kvm_riscv_vcpu_sbi_forward vcpu m.run).2, m.log⟩,
    (kvm_riscv_vcpu_sbi_forward vcpu m.run).1, ?_, ?_, ?_, ?_, ?_, ?_, ?_⟩
  · simp only [kvm_riscv_vcpu_sbi_ecall, hself, sbi_ecall_switch, ha7, if_true]
    rfl
  · rfl
  · simp [kvm_riscv_vcpu_sbi_forward, KVM_EXIT_RISCV_SBI, KVM_EXIT_SYSTEM_EVENT]
  · exact store_getElem? _ _ _ hlt
  · rfl
  · rfl
  · intro run
    simp [kvm_riscv_vcpu_sbi_return, kvm_riscv_vcpu_sbi_forward, ulong_add]

/-- Instance of C2: console-putchar from the only vCPU of a VM on a 64-bit build. -/
theorem console_forward_then_return_witness :
    ∃ m1 vcpu1,
      kvm_riscv_vcpu_sbi_ecall ex_cfg64 (ex_read_ok 0)
        (ex_machine1 65 SBI_EXT_0_1_CONSOLE_PUTCHAR) 0 = .ok (0, m1) ∧
      m1.run.exit_reason = KVM_EXIT_RISCV_SBI ∧
      m1.run.exit_reason ≠ KVM_EXIT_SYSTEM_EVENT ∧
      m1.kvm.vcpus[0]? = some vcpu1 ∧
      vcpu1.arch.sbi_context.return_handled = 0 ∧
      vcpu1.arch.guest_context.sepc = 0x1000 ∧
      ∀ run : kvm_run,
        (kvm_riscv_vcpu_sbi_return ex_cfg64 vcpu1 run).1 = 0 ∧
        (kvm_riscv_vcpu_sbi_return ex_cfg64 vcpu1 run).2.arch.guest_context.sepc =
          (0x1000 + 4) % 2 ^ 64 ∧
        (kvm_riscv_vcpu_sbi_return ex_cfg64 vcpu1 run).2.arch.guest_context.a0 =
          run.riscv_sbi.ret_0 ∧
        (kvm_riscv_vcpu_sbi_return ex_cfg64 vcpu1 run).2.arch.guest_context.a1 =
          run.riscv_sbi.ret_1 :=
  console_forward_then_return ex_cfg64 (ex_read_ok 0)
    (ex_machine1 65 SBI_EXT_0_1_CONSOLE_PUTCHAR) 0
    (ex_vcpu 0 3 65 SBI_EXT_0_1_CONSOLE_PUTCHAR) rfl (Or.inr rfl)

/-! ## Unknown extension ids -/

/-- C3, refuted as stated: `a7 = SBI_TEST_TIMING_START` (`0xC200000`) is none of the nine
legacy ids, yet the call does not reach the unsupported-call branch: `a0` keeps its
value 0, which is not the "not supported" sentinel, and the call leaves a trace in the
log of outgoing calls. -/
theorem unknown_id_not_always_unsupported :
    SBI_TEST_TIMING_START ∉ legacy_extension_ids ∧
    ∃ m1 vcpu1,
      kvm_riscv_vcpu_sbi_ecall ex_cfg64 (ex_read_ok 0)
        (ex_machine1 0 SBI_TEST_TIMING_START) 0 = .ok (1, m1) ∧
      m1.kvm.vcpus[0]? = some vcpu1 ∧
      vcpu1.arch.guest_context.a0 = 0 ∧
      vcpu1.arch.guest_context.a0 ≠ to_ulong ex_cfg64 SBI_ERR_NOT_SUPPORTED ∧
      m1.log ≠ (ex_machine1 0 SBI_TEST_TIMING_START).log :=
  ⟨by decide, _, _, rfl, rfl, rfl, by decide, by decide⟩

/-- C3, amended: when `a7` is none of the nine legacy ids and none of the seven debug
and test ids that have a `case` of their own, `kvm_riscv_vcpu_sbi_ecall` takes the
`default` branch: it returns the nonzero status 1, and the machine afterwards is the
machine before with `a0` of the caller set to `SBI_ERR_NOT_SUPPORTED` (as an
`unsigned long`) and `sepc` of the caller advanced by 4.  The caller's other registers
and flags, the other vCPUs, the online count, the exit record and the log are the ones
from before. -/
theorem unknown_id_unsupported (cfg : Config) (read : unpriv_read_fn) (m : Machine)
    (self : Nat) (vcpu : kvm_vcpu)
    (hself : m.kvm.vcpus[self]? = some vcpu)
    (hlegacy : vcpu.arch.guest_context.a7 ∉ legacy_extension_ids)
    (hdebug : vcpu.arch.guest_context.a7 ∉ debug_extension_ids cfg) :
    kvm_riscv_vcpu_sbi_ecall cfg read m self =
      .ok (1, { m with
        kvm := store m.kvm self
          ((vcpu.set_a0 (to_ulong cfg SBI_ERR_NOT_SUPPORTED)).next_sepc cfg) }) ∧
    (1 : Int) ≠ 0 := by
  have hlt := lt_length_of_getElem? hself
  simp only [legacy_extension_ids, debug_extension_ids, List.mem_cons, List.mem_singleton,
    List.mem_nil_iff, or_false, not_or] at hlegacy hdebug
  obtain ⟨h1, h2, h3, h4, h5, h6, h7, h8, h9⟩ := hlegacy
  obtain ⟨d1, d2, d3, d4, d5, d6, d7⟩ := hdebug
  refine ⟨?_, by decide⟩
  simp only [kvm_riscv_vcpu_sbi_ecall, hself, sbi_ecall_switch, h1, h2, h3, h4, h5, h6, h7,
      h8, h9, d1, d2, d3, d4, d5, d6, d7, or_self, if_false, if_true,
      advance_sepc_store cfg m.kvm self _ hlt]
  rfl

/-- Instance of the amended C3: the id 77 on a 64-bit build. -/
theorem unknown_id_unsupported_witness :
    (77 : Nat) ∉ legacy_extension_ids ∧ (77 : Nat) ∉ debug_extension_ids ex_cfg64 ∧
    kvm_riscv_vcpu_sbi_ecall ex_cfg64 (ex_read_ok 0) (ex_machine1 5 77) 0 =
      .ok (1, { ex_machine1 5 77 with
        kvm := store (ex_machine1 5 77).kvm 0
          (((ex_vcpu 0 3 5 77).set_a0 (to_ulong ex_cfg64 SBI_ERR_NOT_SUPPORTED)).next_sepc
            ex_cfg64) }) :=
  ⟨by decide, by decide,
    (unknown_id_unsupported ex_cfg64 (ex_read_ok 0) (ex_machine1 5 77) 0 (ex_vcpu 0 3 5 77)
      rfl (by decide) (by decide)).1⟩

/-! ## Send-IPI -/

theorem find_vcpu_by_id_spec (id : Nat) (l : List kvm_vcpu) :
    ∀ r, find_vcpu_by_id id l = some r → ∃ v, l[r]? = some v ∧ v.vcpu_id = id := by
  induction l with
  | nil => intro r h; simp [find_vcpu_by_id] at h
  | cons w ws ih =>
    intro r h
    by_cases hw : w.vcpu_id = id
    · simp [find_vcpu_by_id, hw] at h
      subst h
      exact ⟨w, by simp, hw⟩
    · simp only [find_vcpu_by_id, hw, if_false, Option.map_eq_some'] at h
      obtain ⟨a, ha, rfl⟩ := h
      obtain ⟨v, hv, hid⟩ := ih a ha
      exact ⟨v, by simpa using hv, hid⟩

theorem find_vcpu_by_id_of_mem (id : Nat) (l : List kvm_vcpu)
    (h : ∃ v ∈ l, v.vcpu_id = id) : ∃ r, find_vcpu_by_id id l = some r := by
  induction l with
  | nil => simp at h
  | cons w ws ih =>
    by_cases hw : w.vcpu_id = id
    · exact ⟨0, by simp [find_vcpu_by_id, hw]⟩
    · obtain ⟨v, hv, hid⟩ := h
      rcases List.mem_cons.mp hv with e | hv1
      · subst e
        exact absurd hid hw
      · obtain ⟨r, hr⟩ := ih ⟨v, hv1, hid⟩
        exact ⟨r + 1, by simp [find_vcpu_by_id, hw, hr]⟩

theorem set_eq_map_of_nodup_ids (g : kvm_vcpu → kvm_vcpu) (id : Nat) (l : List kvm_vcpu) :
    ∀ (r : Nat) (v : kvm_vcpu), (l.map (fun w => w.vcpu_id)).Nodup → l[r]? = some v →
      v.vcpu_id = id →
      l.set r (g v) = l.map (fun w => if w.vcpu_id = id then g w else w) := by
  induction l with
  | nil => intro r v _ h; simp at h
  | cons w ws ih =>
    intro r v hnd hr hid
    simp only [List.map_cons, List.nodup_cons, List.mem_map, not_exists, not_and] at hnd
    obtain ⟨hw, hws⟩ := hnd
    cases r with
    | zero =>
      simp only [List.getElem?_cons_zero, Option.some.injEq] at hr
      subst hr
      have : ws.map (fun w => if w.vcpu_id = id then g w else w) = ws := by
        conv_rhs => rw [← List.map_id ws]
        apply List.map_congr_left
        intro x hx
        have : ¬ (x.vcpu_id = id) := fun e => hw x hx (e.trans hid.symm)
        simp [this]
      simp [hid, this]
    | succ r1 =>
      simp only [List.getElem?_cons_succ] at hr
      have hv : v ∈ ws := List.getElem?_mem hr
      have hne : ¬ (w.vcpu_id = id) := fun e => hw v hv (hid.trans e.symm)
      simp [hne, ih r1 v hws hr hid]

theorem send_ipi_loop_resolved (l : List Nat) :
    ∀ k : kvm, (k.vcpus.map (fun w => w.vcpu_id)).Nodup →
      k.online_vcpus = k.vcpus.length →
      (∀ i ∈ l, ∃ v ∈ k.vcpus, v.vcpu_id = i) →
      send_ipi_loop l k = .ok { k with
        vcpus := k.vcpus.map
          (fun v => if v.vcpu_id ∈ l then set_interrupt IRQ_VS_SOFT v else v) } := by
  induction l with
  | nil => intro k _ _ _; simp [send_ipi_loop]
  | cons i rest ih =>
    intro k hnd ho hl
    obtain ⟨r, hr⟩ := find_vcpu_by_id_of_mem i k.vcpus (hl i (by simp))
    obtain ⟨v, hv, hid⟩ := find_vcpu_by_id_spec i k.vcpus r hr
    have hget : kvm_get_vcpu_by_id k i = some r := by
      simpa [kvm_get_vcpu_by_id, ho] using hr
    have hset := set_eq_map_of_nodup_ids (set_interrupt IRQ_VS_SOFT) i k.vcpus r v hnd hv hid
    have hids : (k.vcpus.map (fun w => if w.vcpu_id = i then set_interrupt IRQ_VS_SOFT w
        else w)).map (fun w => w.vcpu_id) = k.vcpus.map (fun w => w.vcpu_id) := by
      rw [List.map_map]
      apply List.map_congr_left
      intro x _
      by_cases hx : x.vcpu_id = i <;> simp [hx, set_interrupt]
    have hk1 := ih ⟨k.vcpus.map
        (fun w => if w.vcpu_id = i then set_interrupt IRQ_VS_SOFT w else w), k.online_vcpus⟩
      (by rw [hids]; exact hnd) (by simpa using ho)
      (by
        intro j hj
        obtain ⟨x, hx, hxid⟩ := hl j (by simp [hj])
        refine ⟨_, List.mem_map_of_mem _ hx, ?_⟩
        by_cases hxi : x.vcpu_id = i <;> simp [hxi, set_interrupt, ← hxid])
    simp only [send_ipi_loop, hget, kvm_riscv_vcpu_set_interrupt, deref, hv, store, hset, hk1]
    congr 2
    rw [List.map_map]
    apply List.map_congr_left
    intro x _
    by_cases hx : x.vcpu_id = i
    · have h1 : (set_interrupt IRQ_VS_SOFT x).vcpu_id = i := hx
      by_cases hm : i ∈ rest <;> simp [hx, h1, hm, set_interrupt_idem]
    · simp [hx]

/-- C5: send-IPI to all online vCPUs.  In a VM with `n` online vCPUs that carry the
logical ids `0 .. n-1` (in any order), `n` below the register width, a send-IPI call
with `a0 = 0` uses the hart mask `2 ^ n - 1` and returns the nonzero status 1; the
machine afterwards is the machine before with the software interrupt `IRQ_VS_SOFT` set
pending on every one of the `n` vCPUs (the caller among them) and `sepc` of the caller
advanced by 4.  The VM has no vCPU besides these `n` and nothing else differs; setting
the interrupt makes its pending bit read as set. -/
theorem send_ipi_all_online (cfg : Config) (read : unpriv_read_fn) (m : Machine)
    (self : Nat) (vcpu : kvm_vcpu)
    (hself : m.kvm.vcpus[self]? = some vcpu)
    (ha7 : vcpu.arch.guest_context.a7 = SBI_EXT_0_1_SEND_IPI)
    (ha0 : vcpu.arch.guest_context.a0 = 0)
    (hids : List.Perm (m.kvm.vcpus.map (fun v => v.vcpu_id))
      (List.range m.kvm.online_vcpus))
    (hn : m.kvm.online_vcpus < cfg.xlen) :
    (resolve_hmask cfg read m.kvm vcpu).1 = 2 ^ m.kvm.online_vcpus - 1 ∧
    m.kvm.vcpus.length = m.kvm.online_vcpus ∧
    kvm_riscv_vcpu_sbi_ecall cfg read m self =
      .ok (1, { m with
        kvm := store { m.kvm with vcpus := m.kvm.vcpus.map (set_interrupt IRQ_VS_SOFT) }
          self ((set_interrupt IRQ_VS_SOFT vcpu).next_sepc cfg) }) ∧
    (1 : Int) ≠ 0 ∧
    ∀ v : kvm_vcpu,
      (set_interrupt IRQ_VS_SOFT v).arch.irqs_pending.testBit IRQ_VS_SOFT = true := by
  have hlen : m.kvm.vcpus.length = m.kvm.online_vcpus := by
    simpa using hids.length_eq
  have hnd : (m.kvm.vcpus.map (fun v => v.vcpu_id)).Nodup :=
    hids.nodup_iff.mpr (List.nodup_range _)
  have hmask : (resolve_hmask cfg read m.kvm vcpu) =
      (2 ^ m.kvm.online_vcpus - 1, kvm_cpu_trap.zero) := by
    simp [resolve_hmask, ha0, Nat.mod_eq_of_lt hn, Nat.one_shiftLeft]
  have hbits : ∀ i ∈ for_each_set_bit (2 ^ m.kvm.online_vcpus - 1) cfg.xlen,
      ∃ v ∈ m.kvm.vcpus, v.vcpu_id = i := by
    intro i hi
    rw [mem_for_each_set_bit] at hi
    have hi2 : i < m.kvm.online_vcpus := by simpa using hi.2
    have : i ∈ m.kvm.vcpus.map (fun v => v.vcpu_id) :=
      hids.mem_iff.mpr (List.mem_range.mpr hi2)
    simpa using this
  have hloop := send_ipi_loop_resolved _ m.kvm hnd hlen.symm hbits
  have hmap : m.kvm.vcpus.map (fun v =>
      if v.vcpu_id ∈ for_each_set_bit (2 ^ m.kvm.online_vcpus - 1) cfg.xlen then
        set_interrupt IRQ_VS_SOFT v else v) = m.kvm.vcpus.map (set_interrupt IRQ_VS_SOFT) := by
    apply List.map_congr_left
    intro v hv
    have hid : v.vcpu_id < m.kvm.online_vcpus :=
      List.mem_range.mp (hids.mem_iff.mp (List.mem_map_of_mem _ hv))
    have : v.vcpu_id ∈ for_each_set_bit (2 ^ m.kvm.online_vcpus - 1) cfg.xlen := by
      rw [mem_for_each_set_bit]
      constructor
      · omega
      · simp [hid]
    simp [this]
  rw [hmap] at hloop
  refine ⟨by rw [hmask], hlen, ?_, by decide, ?_⟩
  · have hne1 : ¬ (SBI_EXT_0_1_SEND_IPI = SBI_EXT_0_1_CONSOLE_GETCHAR ∨
        SBI_EXT_0_1_SEND_IPI = SBI_EXT_0_1_CONSOLE_PUTCHAR) := by decide
    have hne2 : ¬ (SBI_EXT_0_1_SEND_IPI = SBI_EXT_0_1_SET_TIMER) := by decide
    have hne3 : ¬ (SBI_EXT_0_1_SEND_IPI = SBI_EXT_0_1_CLEAR_IPI) := by decide
    have hz : kvm_cpu_trap.zero.scause = 0 := rfl
    have hself1 : (m.kvm.vcpus.map (set_interrupt IRQ_VS_SOFT))[self]? =
        some (set_interrupt IRQ_VS_SOFT vcpu) := by simp [hself]
    simp only [kvm_riscv_vcpu_sbi_ecall, hself, sbi_ecall_switch, ha7, hne1, hne2, hne3,
      if_false, if_true, hmask, hz, ne_eq, not_true_eq_false, hloop]
    rw [advance_sepc_of_getElem? cfg _ self _ hself1]
  · intro v
    simp [set_interrupt, testBit_set_bit]

/-- Instance of C5: send-IPI with `a0 = 0` from vCPU 0 of a two-vCPU VM, 64-bit build. -/
theorem send_ipi_all_online_witness :
    (resolve_hmask ex_cfg64 (ex_read_ok 0) (ex_machine2 0 SBI_EXT_0_1_SEND_IPI).kvm
      (ex_vcpu 0 3 0 SBI_EXT_0_1_SEND_IPI)).1 = 2 ^ 2 - 1 ∧
    (ex_machine2 0 SBI_EXT_0_1_SEND_IPI).kvm.vcpus.length = 2 ∧
    kvm_riscv_vcpu_sbi_ecall ex_cfg64 (ex_read_ok 0) (ex_machine2 0 SBI_EXT_0_1_SEND_IPI) 0 =
      .ok (1, { ex_machine2 0 SBI_EXT_0_1_SEND_IPI with
        kvm := store { (ex_machine2 0 SBI_EXT_0_1_SEND_IPI).kvm with
            vcpus := (ex_machine2 0 SBI_EXT_0_1_SEND_IPI).kvm.vcpus.map
              (set_interrupt IRQ_VS_SOFT) }
          0 ((set_interrupt IRQ_VS_SOFT (ex_vcpu 0 3 0 SBI_EXT_0_1_SEND_IPI)).next_sepc
            ex_cfg64) }) ∧
    (1 : Int) ≠ 0 ∧
    ∀ v : kvm_vcpu,
      (set_interrupt IRQ_VS_SOFT v).arch.irqs_pending.testBit IRQ_VS_SOFT = true :=
  send_ipi_all_online ex_cfg64 (ex_read_ok 0) (ex_machine2 0 SBI_EXT_0_1_SEND_IPI) 0
    (ex_vcpu 0 3 0 SBI_EXT_0_1_SEND_IPI) rfl rfl rfl (List.Perm.refl _) (by decide)

/-- C4, the code at a failing input: the only vCPU of a VM (logical id 0) calls send-IPI
with `a0 = 0x8000`; the read of the hart mask at that address succeeds and yields the
word 2, whose only set bit names hart 1.  No vCPU has id 1, `kvm_get_vcpu_by_id` yields
`NULL`, and the run ends in the dereference of that pointer instead of skipping the
bit. -/
theorem send_ipi_unknown_hart_faults :
    (ex_read_ok 2 (ex_vcpu 0 3 0x8000 SBI_EXT_0_1_SEND_IPI) 0x8000).2.scause = 0 ∧
    for_each_set_bit 2 ex_cfg64.xlen = [1] ∧
    kvm_get_vcpu_by_id (ex_machine1 0x8000 SBI_EXT_0_1_SEND_IPI).kvm 1 = none ∧
    kvm_riscv_vcpu_sbi_ecall ex_cfg64 (ex_read_ok 2)
      (ex_machine1 0x8000 SBI_EXT_0_1_SEND_IPI) 0 = .error .null_vcpu :=
  ⟨rfl, by decide, rfl, rfl⟩

/-! ## Set-timer -/

theorem set_timer_next_cycle_32 (cfg : Config) (cp : kvm_cpu_context) (hx : cfg.xlen = 32)
    (h0 : cp.a0 < 2 ^ 32) (h1 : cp.a1 < 2 ^ 32) :
    set_timer_next_cycle cfg cp = cp.a1 * 2 ^ 32 + cp.a0 := by
  have e1 : cp.a1 % 2 ^ 64 = cp.a1 := Nat.mod_eq_of_lt (by omega)
  have e0 : cp.a0 % 2 ^ 64 = cp.a0 := Nat.mod_eq_of_lt (by omega)
  have e2 : (cp.a1 <<< 32) % 2 ^ 64 = cp.a1 <<< 32 := by
    rw [Nat.shiftLeft_eq]
    exact Nat.mod_eq_of_lt (by omega)
  simp only [set_timer_next_cycle, hx, if_true, e1, e0, e2]
  rw [Nat.shiftLeft_eq, Nat.mul_comm cp.a1 (2 ^ 32), ← Nat.mul_add_lt_is_or h0]

theorem set_timer_next_cycle_64 (cfg : Config) (cp : kvm_cpu_context) (hx : cfg.xlen = 64)
    (h0 : cp.a0 < 2 ^ 64) : set_timer_next_cycle cfg cp = cp.a0 := by
  simp only [set_timer_next_cycle, hx]
  rw [if_neg (by decide)]
  exact Nat.mod_eq_of_lt h0

/-- C6: set-timer.  On a 32-bit or 64-bit build, with `a0` and `a1` of the caller within
the register width, a set-timer call returns the nonzero status 1 and makes exactly one
call to the timer, `kvm_riscv_vcpu_timer_next_event`, for the calling vCPU, with the
next-event value `a1 * 2 ^ 32 + a0` on 32 bits and `a0` (whatever `a1` holds) on 64
bits.  The machine afterwards differs from the one before only in that one entry of the
log and in `sepc` of the caller, advanced by 4; no other register is written. -/
theorem set_timer_arms_next_event (cfg : Config) (read : unpriv_read_fn) (m : Machine)
    (self : Nat) (vcpu : kvm_vcpu)
    (hself : m.kvm.vcpus[self]? = some vcpu)
    (ha7 : vcpu.arch.guest_context.a7 = SBI_EXT_0_1_SET_TIMER)
    (hx : cfg.xlen = 32 ∨ cfg.xlen = 64)
    (h0 : vcpu.arch.guest_context.a0 < 2 ^ cfg.xlen)
    (h1 : vcpu.arch.guest_context.a1 < 2 ^ cfg.xlen) :
    kvm_riscv_vcpu_sbi_ecall cfg read m self =
      .ok (1, { m with
        kvm := store m.kvm self (vcpu.next_sepc cfg)
        log := m.log ++ [.kvm_riscv_vcpu_timer_next_event self
          (if cfg.xlen = 32 then
            vcpu.arch.guest_context.a1 * 2 ^ 32 + vcpu.arch.guest_context.a0
          else vcpu.arch.guest_context.a0)] }) ∧
    (1 : Int) ≠ 0 := by
  have hne1 : ¬ (SBI_EXT_0_1_SET_TIMER = SBI_EXT_0_1_CONSOLE_GETCHAR ∨
      SBI_EXT_0_1_SET_TIMER = SBI_EXT_0_1_CONSOLE_PUTCHAR) := by decide
  have hval : set_timer_next_cycle cfg vcpu.arch.guest_context =
      (if cfg.xlen = 32 then
        vcpu.arch.guest_context.a1 * 2 ^ 32 + vcpu.arch.guest_context.a0
      else vcpu.arch.guest_context.a0) := by
    rcases hx with hx | hx
    · rw [hx] at h0 h1
      rw [set_timer_next_cycle_32 cfg _ hx h0 h1, if_pos hx]
    · rw [hx] at h0
      rw [set_timer_next_cycle_64 cfg _ hx h0, if_neg (by omega)]
  refine ⟨?_, by decide⟩
  simp only [kvm_riscv_vcpu_sbi_ecall, hself, sbi_ecall_switch, ha7, hne1, if_false, if_true,
    hval, advance_sepc_of_getElem? cfg m.kvm self vcpu hself]

/-- Instance of C6: on a 32-bit build, `a0 = 0x00000001` and `a1 = 0x00000002` arm the
timer at `0x0000000200000001`. -/
theorem set_timer_arms_next_event_witness :
    kvm_riscv_vcpu_sbi_ecall ex_cfg32 (ex_read_ok 0) ex_machine_timer 0 =
      .ok (1, { ex_machine_timer with
        kvm := store ex_machine_timer.kvm 0 (ex_vcpu_timer.next_sepc ex_cfg32)
        log := [.kvm_riscv_vcpu_timer_next_event 0 0x0000000200000001] }) ∧
    (1 : Int) ≠ 0 :=
  set_timer_arms_next_event ex_cfg32 (ex_read_ok 0) ex_machine_timer 0 ex_vcpu_timer
    rfl rfl (Or.inl rfl) (by decide) (by decide)

/-! ## Shutdown -/

theorem kvm_sbi_system_shutdown_all_online (k : kvm) (run : kvm_run)
    (honline : k.online_vcpus = k.vcpus.length) :
    kvm_sbi_system_shutdown k run KVM_SYSTEM_EVENT_SHUTDOWN =
      ({ k with vcpus := k.vcpus.map kvm_vcpu.powered_off },
        run.system_event_exit KVM_SYSTEM_EVENT_SHUTDOWN) := by
  simp only [kvm_sbi_system_shutdown, kvm_make_all_cpus_request]
  rw [kvm_for_each_vcpu_all_online k _ honline,
    kvm_for_each_vcpu_all_online _ _ (by simpa using honline)]
  simp [kvm_vcpu.powered_off, kvm_run.system_event_exit, KVM_SYSTEM_EVENT_SHUTDOWN,
    Function.comp_def]

/-- C7: shutdown.  In a VM all of whose vCPUs are online (any number of them), a
shutdown call returns 0; afterwards every vCPU of the VM, the caller included, has the
power-off flag set and the sleep request posted and is otherwise as before, so the
caller's `sepc` and registers are unchanged; the exit reason is the system-event exit,
the event kind is shutdown and the other system-event field is zero; the number of
vCPUs, the online count and the log are as before. -/
theorem shutdown_powers_off_every_vcpu (cfg : Config) (read : unpriv_read_fn) (m : Machine)
    (self : Nat) (vcpu : kvm_vcpu)
    (hself : m.kvm.vcpus[self]? = some vcpu)
    (ha7 : vcpu.arch.guest_context.a7 = SBI_EXT_0_1_SHUTDOWN)
    (honline : m.kvm.online_vcpus = m.kvm.vcpus.length) :
    ∃ m1 : Machine,
      kvm_riscv_vcpu_sbi_ecall cfg read m self = .ok (0, m1) ∧
      m1.kvm.vcpus = m.kvm.vcpus.map kvm_vcpu.powered_off ∧
      (∀ (j : Nat) (v1 : kvm_vcpu), m1.kvm.vcpus[j]? = some v1 →
        v1.arch.power_off = true ∧ v1.requests.testBit KVM_REQ_SLEEP = true) ∧
      (∃ v1 : kvm_vcpu, m1.kvm.vcpus[self]? = some v1 ∧
        v1.arch.guest_context = vcpu.arch.guest_context) ∧
      m1.run.exit_reason = KVM_EXIT_SYSTEM_EVENT ∧
      m1.run.system_event.type = KVM_SYSTEM_EVENT_SHUTDOWN ∧
      m1.run.system_event.flags = 0 ∧
      m1.kvm.online_vcpus = m.kvm.online_vcpus ∧
      m1.log = m.log := by
  have hne1 : ¬ (SBI_EXT_0_1_SHUTDOWN = SBI_EXT_0_1_CONSOLE_GETCHAR ∨
      SBI_EXT_0_1_SHUTDOWN = SBI_EXT_0_1_CONSOLE_PUTCHAR) := by decide
  have hne2 : ¬ (SBI_EXT_0_1_SHUTDOWN = SBI_EXT_0_1_SET_TIMER) := by decide
  have hne3 : ¬ (SBI_EXT_0_1_SHUTDOWN = SBI_EXT_0_1_CLEAR_IPI) := by decide
  have hne4 : ¬ (SBI_EXT_0_1_SHUTDOWN = SBI_EXT_0_1_SEND_IPI) := by decide
  refine ⟨⟨{ m.kvm with vcpus := m.kvm.vcpus.map kvm_vcpu.powered_off },
    m.run.system_event_exit KVM_SYSTEM_EVENT_SHUTDOWN, m.log⟩, ?_, rfl, ?_, ?_, rfl, rfl,
    rfl, rfl, rfl⟩
  · simp only [kvm_riscv_vcpu_sbi_ecall, hself, sbi_ecall_switch, ha7, hne1, hne2, hne3,
      hne4, if_false, if_true, kvm_sbi_system_shutdown_all_online m.kvm m.run honline]
    rfl
  · intro j v1 hj
    simp only [List.getElem?_map, Option.map_eq_some'] at hj
    obtain ⟨v, _, rfl⟩ := hj
    simp [kvm_vcpu.powered_off, testBit_set_bit]
  · exact ⟨vcpu.powered_off, by simp [hself], rfl⟩

/-- Instance of C7: shutdown called by vCPU 0 of a two-vCPU VM. -/
theorem shutdown_powers_off_every_vcpu_witness :
    ∃ m1 : Machine,
      kvm_riscv_vcpu_sbi_ecall ex_cfg64 (ex_read_ok 0)
        (ex_machine2 0 SBI_EXT_0_1_SHUTDOWN) 0 = .ok (0, m1) ∧
      m1.kvm.vcpus = (ex_machine2 0 SBI_EXT_0_1_SHUTDOWN).kvm.vcpus.map
        kvm_vcpu.powered_off ∧
      (∀ (j : Nat) (v1 : kvm_vcpu), m1.kvm.vcpus[j]? = some v1 →
        v1.arch.power_off = true ∧ v1.requests.testBit KVM_REQ_SLEEP = true) ∧
      (∃ v1 : kvm_vcpu, m1.kvm.vcpus[0]? = some v1 ∧
        v1.arch.guest_context = (ex_vcpu 0 3 0 SBI_EXT_0_1_SHUTDOWN).arch.guest_context) ∧
      m1.run.exit_reason = KVM_EXIT_SYSTEM_EVENT ∧
      m1.run.system_event.type = KVM_SYSTEM_EVENT_SHUTDOWN ∧
      m1.run.system_event.flags = 0 ∧
      m1.kvm.online_vcpus = (ex_machine2 0 SBI_EXT_0_1_SHUTDOWN).kvm.online_vcpus ∧
      m1.log = (ex_machine2 0 SBI_EXT_0_1_SHUTDOWN).log :=
  shutdown_powers_off_every_vcpu ex_cfg64 (ex_read_ok 0) (ex_machine2 0 SBI_EXT_0_1_SHUTDOWN)
    0 (ex_vcpu 0 3 0 SBI_EXT_0_1_SHUTDOWN) rfl rfl rfl

/-! ## Remote fences -/

theorem fence_loop_ok (k : kvm) (l : List Nat) :
    ∀ cm0 : cpumask, (∀ i ∈ l, kvm_get_vcpu_by_id k i ≠ none) →
      ∃ cm : cpumask, fence_loop k l cm0 = .ok cm ∧
        ∀ c : Nat, c ∈ cm ↔ c ∈ cm0 ∨ ∃ i ∈ l, ∃ (r : Nat) (v : kvm_vcpu),
          kvm_get_vcpu_by_id k i = some r ∧ k.vcpus[r]? = some v ∧ 0 ≤ v.cpu ∧
            v.cpu.toNat = c := by
  induction l with
  | nil =>
    intro cm0 _
    exact ⟨cm0, rfl, by simp⟩
  | cons i rest ih =>
    intro cm0 hl
    obtain ⟨r, v, hg, hv, hd⟩ := deref_kvm_get_vcpu_by_id (hl i (by simp))
    have hrest : ∀ j ∈ rest, kvm_get_vcpu_by_id k j ≠ none :=
      fun j hj => hl j (by simp [hj])
    by_cases hc : v.cpu < 0
    · obtain ⟨cm, hcm, hmem⟩ := ih cm0 hrest
      refine ⟨cm, by simp [fence_loop, hd, hc, hcm], ?_⟩
      intro c
      rw [hmem c]
      constructor
      · rintro (h | ⟨j, hj, h⟩)
        · exact Or.inl h
        · exact Or.inr ⟨j, by simp [hj], h⟩
      · rintro (h | ⟨j, hj, r1, v1, h1, h2, h3, h4⟩)
        · exact Or.inl h
        · rcases List.mem_cons.mp hj with e | hj1
          · subst e
            rw [hg] at h1
            cases h1
            rw [hv] at h2
            cases h2
            omega
          · exact Or.inr ⟨j, hj1, r1, v1, h1, h2, h3, h4⟩
    · obtain ⟨cm, hcm, hmem⟩ := ih (insert v.cpu.toNat cm0) hrest
      refine ⟨cm, by simp [fence_loop, hd, hc, hcm], ?_⟩
      intro c
      rw [hmem c, Finset.mem_insert]
      constructor
      · rintro ((h | h) | ⟨j, hj, h⟩)
        · exact Or.inr ⟨i, by simp, r, v, hg, hv, by omega, h.symm⟩
        · exact Or.inl h
        · exact Or.inr ⟨j, by simp [hj], h⟩
      · rintro (h | ⟨j, hj, r1, v1, h1, h2, h3, h4⟩)
        · exact Or.inl (Or.inr h)
        · rcases List.mem_cons.mp hj with e | hj1
          · subst e
            rw [hg] at h1
            cases h1
            rw [hv] at h2
            cases h2
            exact Or.inl (Or.inl h4.symm)
          · exact Or.inr ⟨j, hj1, r1, v1, h1, h2, h3, h4⟩

/-- C8: remote fences.  For each of the three remote-fence ids, when the hart mask is
resolved without a fault and each of its set bits below the register width names an
existing vCPU, the call returns the nonzero status 1 and issues exactly one fence
request.  The request is scoped to the hart ids of the set `cm` of physical CPUs, where
`c` is in `cm` exactly when some set bit `i` of the mask resolves to a vCPU that is
loaded (`cpu >= 0`) on `c`; targets with `cpu < 0` contribute nothing.  The request is
fence-I without arguments, fence-VMA with `(a1, a2)` or fence-VMA-with-ASID with
`(a1, a2, a3)` according to `a7`.  Apart from that one log entry only `sepc` of the
caller changes, advanced by 4. -/
theorem remote_fence_scheduled_targets (cfg : Config) (read : unpriv_read_fn) (m : Machine)
    (self : Nat) (vcpu : kvm_vcpu)
    (hself : m.kvm.vcpus[self]? = some vcpu)
    (ha7 : vcpu.arch.guest_context.a7 = SBI_EXT_0_1_REMOTE_FENCE_I ∨
      vcpu.arch.guest_context.a7 = SBI_EXT_0_1_REMOTE_SFENCE_VMA ∨
      vcpu.arch.guest_context.a7 = SBI_EXT_0_1_REMOTE_SFENCE_VMA_ASID)
    (hok : (resolve_hmask cfg read m.kvm vcpu).2.scause = 0)
    (hexist : ∀ i, i < cfg.xlen → (resolve_hmask cfg read m.kvm vcpu).1.testBit i = true →
      kvm_get_vcpu_by_id m.kvm i ≠ none) :
    ∃ (cm : cpumask) (req : Effect),
      (∀ c : Nat, c ∈ cm ↔ ∃ (i r : Nat) (v : kvm_vcpu), i < cfg.xlen ∧
        (resolve_hmask cfg read m.kvm vcpu).1.testBit i = true ∧
        kvm_get_vcpu_by_id m.kvm i = some r ∧ m.kvm.vcpus[r]? = some v ∧
        0 ≤ v.cpu ∧ v.cpu.toNat = c) ∧
      (∀ h : Nat, h ∈ riscv_cpuid_to_hartid_mask cfg cm ↔
        ∃ c ∈ cm, cfg.cpuid_to_hartid_map c = h) ∧
      (vcpu.arch.guest_context.a7 = SBI_EXT_0_1_REMOTE_FENCE_I →
        req = .sbi_remote_fence_i (riscv_cpuid_to_hartid_mask cfg cm)) ∧
      (vcpu.arch.guest_context.a7 = SBI_EXT_0_1_REMOTE_SFENCE_VMA →
        req = .sbi_remote_hfence_vvma (riscv_cpuid_to_hartid_mask cfg cm)
          vcpu.arch.guest_context.a1 vcpu.arch.guest_context.a2) ∧
      (vcpu.arch.guest_context.a7 = SBI_EXT_0_1_REMOTE_SFENCE_VMA_ASID →
        req = .sbi_remote_hfence_vvma_asid (riscv_cpuid_to_hartid_mask cfg cm)
          vcpu.arch.guest_context.a1 vcpu.arch.guest_context.a2
          vcpu.arch.guest_context.a3) ∧
      kvm_riscv_vcpu_sbi_ecall cfg read m self =
        .ok (1, { m with
          kvm := store m.kvm self (vcpu.next_sepc cfg)
          log := m.log ++ [req] }) ∧
      (1 : Int) ≠ 0 := by
  have hl : ∀ i ∈ for_each_set_bit (resolve_hmask cfg read m.kvm vcpu).1 cfg.xlen,
      kvm_get_vcpu_by_id m.kvm i ≠ none := by
    intro i hi
    rw [mem_for_each_set_bit] at hi
    exact hexist i hi.1 hi.2
  obtain ⟨cm, hcm, hmem⟩ := fence_loop_ok m.kvm _ ∅ hl
  have hne : ¬ (vcpu.arch.guest_context.a7 = SBI_EXT_0_1_CONSOLE_GETCHAR ∨
        vcpu.arch.guest_context.a7 = SBI_EXT_0_1_CONSOLE_PUTCHAR) ∧
      ¬ (vcpu.arch.guest_context.a7 = SBI_EXT_0_1_SET_TIMER) ∧
      ¬ (vcpu.arch.guest_context.a7 = SBI_EXT_0_1_CLEAR_IPI) ∧
      ¬ (vcpu.arch.guest_context.a7 = SBI_EXT_0_1_SEND_IPI) ∧
      ¬ (vcpu.arch.guest_context.a7 = SBI_EXT_0_1_SHUTDOWN) := by
    rcases ha7 with h | h | h <;> rw [h] <;> decide
  obtain ⟨n1, n2, n3, n4, n5⟩ := hne
  refine ⟨cm, fence_request vcpu.arch.guest_context (riscv_cpuid_to_hartid_mask cfg cm),
    ?_, ?_, ?_, ?_, ?_, ?_, by decide⟩
  · intro c
    rw [hmem c]
    simp only [Finset.not_mem_empty, false_or, mem_for_each_set_bit]
    constructor
    · rintro ⟨i, ⟨h1, h2⟩, r, v, h3, h4, h5, h6⟩
      exact ⟨i, r, v, h1, h2, h3, h4, h5, h6⟩
    · rintro ⟨i, r, v, h1, h2, h3, h4, h5, h6⟩
      exact ⟨i, ⟨h1, h2⟩, r, v, h3, h4, h5, h6⟩
  · intro h
    simp [riscv_cpuid_to_hartid_mask]
  · intro h
    simp [fence_request, h]
  · intro h
    have : ¬ (SBI_EXT_0_1_REMOTE_SFENCE_VMA = SBI_EXT_0_1_REMOTE_FENCE_I) := by decide
    simp [fence_request, h, this]
  · intro h
    have h1 : ¬ (SBI_EXT_0_1_REMOTE_SFENCE_VMA_ASID = SBI_EXT_0_1_REMOTE_FENCE_I) := by
      decide
    have h2 : ¬ (SBI_EXT_0_1_REMOTE_SFENCE_VMA_ASID = SBI_EXT_0_1_REMOTE_SFENCE_VMA) := by
      decide
    simp [fence_request, h, h1, h2]
  · simp only [kvm_riscv_vcpu_sbi_ecall, hself, sbi_ecall_switch, n1, n2, n3, n4, n5, ha7,
      if_false, if_true, hok, ne_eq, not_true_eq_false, hcm,
      advance_sepc_of_getElem? cfg m.kvm self vcpu hself]

/-- Instance of C8: vCPU 0 of a two-vCPU VM calls remote-fence-VMA with a hart mask
that names both vCPUs; vCPU 0 is loaded on CPU 3, vCPU 1 is not loaded. -/
theorem remote_fence_scheduled_targets_witness :
    ∃ (cm : cpumask) (req : Effect),
      (∀ c : Nat, c ∈ cm ↔ ∃ (i r : Nat) (v : kvm_vcpu), i < ex_cfg64.xlen ∧
        (resolve_hmask ex_cfg64 (ex_read_ok 3)
          (ex_machine2 0x8000 SBI_EXT_0_1_REMOTE_SFENCE_VMA).kvm
          (ex_vcpu 0 3 0x8000 SBI_EXT_0_1_REMOTE_SFENCE_VMA)).1.testBit i = true ∧
        kvm_get_vcpu_by_id (ex_machine2 0x8000 SBI_EXT_0_1_REMOTE_SFENCE_VMA).kvm i =
          some r ∧
        (ex_machine2 0x8000 SBI_EXT_0_1_REMOTE_SFENCE_VMA).kvm.vcpus[r]? = some v ∧
        0 ≤ v.cpu ∧ v.cpu.toNat = c) ∧
      (∀ h : Nat, h ∈ riscv_cpuid_to_hartid_mask ex_cfg64 cm ↔
        ∃ c ∈ cm, ex_cfg64.cpuid_to_hartid_map c = h) ∧
      ((ex_vcpu 0 3 0x8000 SBI_EXT_0_1_REMOTE_SFENCE_VMA).arch.guest_context.a7 =
          SBI_EXT_0_1_REMOTE_FENCE_I →
        req = .sbi_remote_fence_i (riscv_cpuid_to_hartid_mask ex_cfg64 cm)) ∧
      ((ex_vcpu 0 3 0x8000 SBI_EXT_0_1_REMOTE_SFENCE_VMA).arch.guest_context.a7 =
          SBI_EXT_0_1_REMOTE_SFENCE_VMA →
        req = .sbi_remote_hfence_vvma (riscv_cpuid_to_hartid_mask ex_cfg64 cm) 11 12) ∧
      ((ex_vcpu 0 3 0x8000 SBI_EXT_0_1_REMOTE_SFENCE_VMA).arch.guest_context.a7 =
          SBI_EXT_0_1_REMOTE_SFENCE_VMA_ASID →
        req = .sbi_remote_hfence_vvma_asid (riscv_cpuid_to_hartid_mask ex_cfg64 cm)
          11 12 13) ∧
      kvm_riscv_vcpu_sbi_ecall ex_cfg64 (ex_read_ok 3)
          (ex_machine2 0x8000 SBI_EXT_0_1_REMOTE_SFENCE_VMA) 0 =
        .ok (1, { ex_machine2 0x8000 SBI_EXT_0_1_REMOTE_SFENCE_VMA with
          kvm := store (ex_machine2 0x8000 SBI_EXT_0_1_REMOTE_SFENCE_VMA).kvm 0
            ((ex_vcpu 0 3 0x8000 SBI_EXT_0_1_REMOTE_SFENCE_VMA).next_sepc ex_cfg64)
          log := (ex_machine2 0x8000 SBI_EXT_0_1_REMOTE_SFENCE_VMA).log ++ [req] }) ∧
      (1 : Int) ≠ 0 :=
  remote_fence_scheduled_targets ex_cfg64 (ex_read_ok 3)
    (ex_machine2 0x8000 SBI_EXT_0_1_REMOTE_SFENCE_VMA) 0
    (ex_vcpu 0 3 0x8000 SBI_EXT_0_1_REMOTE_SFENCE_VMA) rfl (Or.inr (Or.inl rfl)) rfl
    (by decide)

/-! ## Faulting hart-mask reads -/

/-- C9: a faulting hart-mask read.  For send-IPI and for each remote-fence id with `a0`
nonzero, when the guest-memory read at `a0` comes back with a nonzero cause, the call
returns the nonzero status 1 and the machine afterwards is the machine before plus
exactly one log entry: the call of `kvm_riscv_vcpu_trap_redirect` for the caller with
the descriptor of the read, its `sepc` set to the caller's trap-time `sepc` and its
cause the cause of the read.  No vCPU is changed (the caller's `sepc` is not advanced,
no interrupt is set) and no fence is issued. -/
theorem hmask_read_fault_redirects (cfg : Config) (read : unpriv_read_fn) (m : Machine)
    (self : Nat) (vcpu : kvm_vcpu)
    (hself : m.kvm.vcpus[self]? = some vcpu)
    (ha7 : vcpu.arch.guest_context.a7 = SBI_EXT_0_1_SEND_IPI ∨
      vcpu.arch.guest_context.a7 = SBI_EXT_0_1_REMOTE_FENCE_I ∨
      vcpu.arch.guest_context.a7 = SBI_EXT_0_1_REMOTE_SFENCE_VMA ∨
      vcpu.arch.guest_context.a7 = SBI_EXT_0_1_REMOTE_SFENCE_VMA_ASID)
    (ha0 : vcpu.arch.guest_context.a0 ≠ 0)
    (hfault : (read vcpu vcpu.arch.guest_context.a0).2.scause ≠ 0) :
    ∃ utrap : kvm_cpu_trap,
      utrap.scause = (read vcpu vcpu.arch.guest_context.a0).2.scause ∧
      utrap.sepc = vcpu.arch.guest_context.sepc ∧
      kvm_riscv_vcpu_sbi_ecall cfg read m self =
        .ok (1, { m with log := m.log ++ [.kvm_riscv_vcpu_trap_redirect self utrap] }) ∧
      (1 : Int) ≠ 0 := by
  have hr : resolve_hmask cfg read m.kvm vcpu = read vcpu vcpu.arch.guest_context.a0 := by
    simp [resolve_hmask, ha0]
  have hne : ¬ (vcpu.arch.guest_context.a7 = SBI_EXT_0_1_CONSOLE_GETCHAR ∨
        vcpu.arch.guest_context.a7 = SBI_EXT_0_1_CONSOLE_PUTCHAR) ∧
      ¬ (vcpu.arch.guest_context.a7 = SBI_EXT_0_1_SET_TIMER) ∧
      ¬ (vcpu.arch.guest_context.a7 = SBI_EXT_0_1_CLEAR_IPI) := by
    rcases ha7 with h | h | h | h <;> rw [h] <;> decide
  obtain ⟨n1, n2, n3⟩ := hne
  refine ⟨{ (read vcpu vcpu.arch.guest_context.a0).2 with
    sepc := vcpu.arch.guest_context.sepc }, rfl, rfl, ?_, by decide⟩
  rcases ha7 with h | h
  · simp only [kvm_riscv_vcpu_sbi_ecall, hself, sbi_ecall_switch, n1, n2, n3, h,
      if_false, if_true, hr, hfault, ne_eq, not_false_eq_true]
    rfl
  · have n4 : ¬ (vcpu.arch.guest_context.a7 = SBI_EXT_0_1_SEND_IPI) ∧
        ¬ (vcpu.arch.guest_context.a7 = SBI_EXT_0_1_SHUTDOWN) := by
      rcases h with h | h | h <;> rw [h] <;> decide
    simp only [kvm_riscv_vcpu_sbi_ecall, hself, sbi_ecall_switch, n1, n2, n3, n4.1, n4.2, h,
      if_false, if_true, hr, hfault, ne_eq, not_false_eq_true]
    rfl

/-- Instance of C9: a send-IPI call whose hart-mask read at `0x8000` faults with cause
13. -/
theorem hmask_read_fault_redirects_witness :
    ∃ utrap : kvm_cpu_trap,
      utrap.scause = 13 ∧
      utrap.sepc = 0x1000 ∧
      kvm_riscv_vcpu_sbi_ecall ex_cfg64 (ex_read_fault 13)
          (ex_machine1 0x8000 SBI_EXT_0_1_SEND_IPI) 0 =
        .ok (1, { ex_machine1 0x8000 SBI_EXT_0_1_SEND_IPI with
          log := (ex_machine1 0x8000 SBI_EXT_0_1_SEND_IPI).log ++
            [.kvm_riscv_vcpu_trap_redirect 0 utrap] }) ∧
      (1 : Int) ≠ 0 :=
  hmask_read_fault_redirects ex_cfg64 (ex_read_fault 13)
    (ex_machine1 0x8000 SBI_EXT_0_1_SEND_IPI) 0 (ex_vcpu 0 3 0x8000 SBI_EXT_0_1_SEND_IPI)
    rfl (Or.inl rfl) (by decide) (by decide)

/-! ## Completion on a powered-off vCPU -/

/-- C10, refuted as stated: vCPU 0 forwards a console-putchar call, vCPU 1 then calls
shutdown, which sets the power-off flag of vCPU 0, and then the completion of the
forwarded call arrives with the result words 7 and 8.  The completion is applied: `a0`,
`a1` and `sepc` of the powered-off vCPU 0 all change. -/
theorem completion_after_shutdown_is_applied :
    ∃ (m1 m2 : Machine) (v : kvm_vcpu),
      kvm_riscv_vcpu_sbi_ecall ex_cfg64 (ex_read_ok 0) ex_machine_putchar_shutdown 0 =
        .ok (0, m1) ∧
      kvm_riscv_vcpu_sbi_ecall ex_cfg64 (ex_read_ok 0) { m1 with run := ex_run 0 0 } 1 =
        .ok (0, m2) ∧
      m2.kvm.vcpus[0]? = some v ∧
      v.arch.power_off = true ∧
      (kvm_riscv_vcpu_sbi_return ex_cfg64 v (ex_run 7 8)).1 = 0 ∧
      (kvm_riscv_vcpu_sbi_return ex_cfg64 v (ex_run 7 8)).2.arch.guest_context.a0 ≠
        v.arch.guest_context.a0 ∧
      (kvm_riscv_vcpu_sbi_return ex_cfg64 v (ex_run 7 8)).2.arch.guest_context.a1 ≠
        v.arch.guest_context.a1 ∧
      (kvm_riscv_vcpu_sbi_return ex_cfg64 v (ex_run 7 8)).2.arch.guest_context.sepc ≠
        v.arch.guest_context.sepc :=
  ⟨_, _, _, rfl, rfl, rfl, rfl, rfl, by decide, by decide, by decide⟩

/-- C10, amended: `kvm_riscv_vcpu_sbi_return` takes no notice of the power-off flag.  On
a vCPU whose power-off flag is set it returns 0 and leaves that flag set; it leaves the
vCPU exactly as it is when the return-applied flag is already set; and when the
return-applied flag is clear it applies the completion: the flag becomes set, `a0` and
`a1` take the two result words and `sepc` advances by 4. -/
theorem sbi_return_on_powered_off_vcpu (cfg : Config) (vcpu : kvm_vcpu) (run : kvm_run)
    (hoff : vcpu.arch.power_off = true) :
    (kvm_riscv_vcpu_sbi_return cfg vcpu run).1 = 0 ∧
    (kvm_riscv_vcpu_sbi_return cfg vcpu run).2.arch.power_off = true ∧
    (vcpu.arch.sbi_context.return_handled ≠ 0 →
      (kvm_riscv_vcpu_sbi_return cfg vcpu run).2 = vcpu) ∧
    (vcpu.arch.sbi_context.return_handled = 0 →
      (kvm_riscv_vcpu_sbi_return cfg vcpu run).2.arch.sbi_context.return_handled = 1 ∧
      (kvm_riscv_vcpu_sbi_return cfg vcpu run).2.arch.guest_context.a0 =
        run.riscv_sbi.ret_0 ∧
      (kvm_riscv_vcpu_sbi_return cfg vcpu run).2.arch.guest_context.a1 =
        run.riscv_sbi.ret_1 ∧
      (kvm_riscv_vcpu_sbi_return cfg vcpu run).2.arch.guest_context.sepc =
        (vcpu.arch.guest_context.sepc + 4) % 2 ^ cfg.xlen) := by
  by_cases h : vcpu.arch.sbi_context.return_handled = 0
  · simp [kvm_riscv_vcpu_sbi_return, h, hoff, ulong_add]
  · simp [kvm_riscv_vcpu_sbi_return, h, hoff]

/-- Instance of the amended C10: a powered-off vCPU with a forwarded call outstanding,
completed with the result words 7 and 8. -/
theorem sbi_return_on_powered_off_vcpu_witness :
    ex_vcpu_pending_off.arch.power_off = true ∧
    (kvm_riscv_vcpu_sbi_return ex_cfg64 ex_vcpu_pending_off (ex_run 7 8)).1 = 0 ∧
    (kvm_riscv_vcpu_sbi_return ex_cfg64 ex_vcpu_pending_off (ex_run 7 8)).2.arch.power_off
      = true ∧
    (ex_vcpu_pending_off.arch.sbi_context.return_handled ≠ 0 →
      (kvm_riscv_vcpu_sbi_return ex_cfg64 ex_vcpu_pending_off (ex_run 7 8)).2 =
        ex_vcpu_pending_off) ∧
    (ex_vcpu_pending_off.arch.sbi_context.return_handled = 0 →
      (kvm_riscv_vcpu_sbi_return ex_cfg64 ex_vcpu_pending_off
        (ex_run 7 8)).2.arch.sbi_context.return_handled = 1 ∧
      (kvm_riscv_vcpu_sbi_return ex_cfg64 ex_vcpu_pending_off
        (ex_run 7 8)).2.arch.guest_context.a0 = 7 ∧
      (kvm_riscv_vcpu_sbi_return ex_cfg64 ex_vcpu_pending_off
        (ex_run 7 8)).2.arch.guest_context.a1 = 8 ∧
      (kvm_riscv_vcpu_sbi_return ex_cfg64 ex_vcpu_pending_off
        (ex_run 7 8)).2.arch.guest_context.sepc = (0x1000 + 4) % 2 ^ 64) :=
  ⟨rfl, sbi_return_on_powered_off_vcpu ex_cfg64 ex_vcpu_pending_off (ex_run 7 8) rfl⟩

/-! ## Case analysis of the dispatcher -/

theorem kvm_riscv_vcpu_set_interrupt_ok {k k1 : kvm} {p : Option Nat} {irq : Nat}
    (h : kvm_riscv_vcpu_set_interrupt k p irq = .ok k1) :
    ∃ r v, k.vcpus[r]? = some v ∧ k1 = store k r (set_interrupt irq v) := by
  cases p with
  | none => simp [kvm_riscv_vcpu_set_interrupt, deref] at h
  | some r =>
    cases hv : k.vcpus[r]? with
    | none => simp [kvm_riscv_vcpu_set_interrupt, deref, hv] at h
    | some v =>
      simp only [kvm_riscv_vcpu_set_interrupt, deref, hv, Except.ok.injEq] at h
      exact ⟨r, v, hv, h.symm⟩

theorem kvm_riscv_vcpu_set_interrupt_error {k : kvm} {p : Option Nat} {irq : Nat} {e : Fault}
    (h : kvm_riscv_vcpu_set_interrupt k p irq = .error e) : e = .null_vcpu := by
  cases p with
  | none => simpa [kvm_riscv_vcpu_set_interrupt, deref] using h.symm
  | some r =>
    cases hv : k.vcpus[r]? with
    | none => simpa [kvm_riscv_vcpu_set_interrupt, deref, hv] using h.symm
    | some v => simp [kvm_riscv_vcpu_set_interrupt, deref, hv] at h

theorem send_ipi_loop_error (l : List Nat) :
    ∀ (k : kvm) (e : Fault), send_ipi_loop l k = .error e → e = .null_vcpu := by
  induction l with
  | nil => intro k e h; simp [send_ipi_loop] at h
  | cons i rest ih =>
    intro k e h
    simp only [send_ipi_loop] at h
    cases hs : kvm_riscv_vcpu_set_interrupt k (kvm_get_vcpu_by_id k i) IRQ_VS_SOFT with
    | ok k1 =>
      rw [hs] at h
      exact ih k1 e h
    | error e1 =>
      rw [hs] at h
      simp only [Except.error.injEq] at h
      subst h
      exact kvm_riscv_vcpu_set_interrupt_error hs

theorem send_ipi_loop_pointwise (l : List Nat) :
    ∀ (k k1 : kvm), send_ipi_loop l k = .ok k1 →
      k1.online_vcpus = k.online_vcpus ∧
      ∀ j : Nat, k1.vcpus[j]? = k.vcpus[j]? ∨
        k1.vcpus[j]? = (k.vcpus[j]?).map (set_interrupt IRQ_VS_SOFT) := by
  induction l with
  | nil =>
    intro k k1 h
    simp only [send_ipi_loop, Except.ok.injEq] at h
    subst h
    exact ⟨rfl, fun j => Or.inl rfl⟩
  | cons i rest ih =>
    intro k k1 h
    simp only [send_ipi_loop] at h
    cases hs : kvm_riscv_vcpu_set_interrupt k (kvm_get_vcpu_by_id k i) IRQ_VS_SOFT with
    | error e1 => rw [hs] at h; simp at h
    | ok k2 =>
      rw [hs] at h
      obtain ⟨r, v, hv, hk2⟩ := kvm_riscv_vcpu_set_interrupt_ok hs
      obtain ⟨ho, hp⟩ := ih k2 k1 h
      subst hk2
      refine ⟨by simpa [store] using ho, ?_⟩
      intro j
      have hlt := lt_length_of_getElem? hv
      by_cases hj : r = j
      · subst hj
        have h2 : (store k r (set_interrupt IRQ_VS_SOFT v)).vcpus[r]? =
            some (set_interrupt IRQ_VS_SOFT v) := store_getElem? _ _ _ hlt
        rcases hp r with h3 | h3
        · right; rw [h3, h2, hv]; rfl
        · right; rw [h3, h2, hv]; simp [set_interrupt_idem]
      · have h2 : (store k r (set_interrupt IRQ_VS_SOFT v)).vcpus[j]? = k.vcpus[j]? := by
          simp [store, List.getElem?_set_ne hj]
        rcases hp j with h3 | h3
        · left; rw [h3, h2]
        · right; rw [h3, h2]

theorem fence_loop_error (k : kvm) (l : List Nat) :
    ∀ (cm : cpumask) (e : Fault), fence_loop k l cm = .error e → e = .null_vcpu := by
  induction l with
  | nil => intro cm e h; simp [fence_loop] at h
  | cons i rest ih =>
    intro cm e h
    simp only [fence_loop] at h
    cases hd : deref k (kvm_get_vcpu_by_id k i) with
    | ok v =>
      rw [hd] at h
      by_cases hc : v.cpu < 0
      · simp only [hc, if_true] at h
        exact ih _ e h
      · simp only [hc, if_false] at h
        exact ih _ e h
    | error e1 =>
      rw [hd] at h
      simp only [Except.error.injEq] at h
      subst h
      cases hg : kvm_get_vcpu_by_id k i with
      | none => simpa [deref, hg] using hd.symm
      | some r =>
        cases hv : k.vcpus[r]? with
        | none => simpa [deref, hg, hv] using hd.symm
        | some v => simp [deref, hg, hv] at hd

theorem kvm_for_each_vcpu_getElem? (k : kvm) (f : kvm_vcpu → kvm_vcpu) (j : Nat) :
    (kvm_for_each_vcpu k f).vcpus[j]? =
      if j < k.online_vcpus then (k.vcpus[j]?).map f else k.vcpus[j]? := by
  by_cases hj : j < k.online_vcpus
  · rw [if_pos hj]
    by_cases hl : j < k.vcpus.length
    · have : j < ((k.vcpus.take k.online_vcpus).map f).length := by
        simp [List.length_take]; omega
      simp only [kvm_for_each_vcpu]
      rw [List.getElem?_append_left this, List.getElem?_map, List.getElem?_take_of_lt hj]
    · have h1 : k.vcpus[j]? = none := List.getElem?_eq_none (by omega)
      have h2 : (kvm_for_each_vcpu k f).vcpus[j]? = none := by
        apply List.getElem?_eq_none
        simp [kvm_for_each_vcpu]
        omega
      rw [h1, h2]; rfl
  · rw [if_neg hj]
    have hle : ((k.vcpus.take k.online_vcpus).map f).length ≤ j := by
      simp [List.length_take]; omega
    simp only [kvm_for_each_vcpu]
    rw [List.getElem?_append_right hle, List.getElem?_drop]
    by_cases hl : k.online_vcpus ≤ k.vcpus.length
    · congr 1
      simp [List.length_take]
      omega
    · have h1 : k.vcpus[j]? = none := List.getElem?_eq_none (by omega)
      rw [h1]
      apply List.getElem?_eq_none
      omega

theorem kvm_sbi_system_shutdown_getElem? (k : kvm) (run : kvm_run) (j : Nat) :
    (kvm_sbi_system_shutdown k run KVM_SYSTEM_EVENT_SHUTDOWN).1.vcpus[j]? =
      if j < k.online_vcpus then (k.vcpus[j]?).map kvm_vcpu.powered_off
      else k.vcpus[j]? := by
  have ho : (kvm_for_each_vcpu k
      (fun tmp => { tmp with arch := { tmp.arch with power_off := true } })).online_vcpus =
      k.online_vcpus := rfl
  simp only [kvm_sbi_system_shutdown, kvm_make_all_cpus_request]
  rw [kvm_for_each_vcpu_getElem?, ho, kvm_for_each_vcpu_getElem?]
  by_cases hj : j < k.online_vcpus
  · simp only [hj, if_true, Option.map_map]
    rfl
  · simp only [hj, if_false]

theorem kvm_sbi_system_shutdown_run (k : kvm) (run : kvm_run) :
    (kvm_sbi_system_shutdown k run KVM_SYSTEM_EVENT_SHUTDOWN).2 =
      run.system_event_exit KVM_SYSTEM_EVENT_SHUTDOWN ∧
    (kvm_sbi_system_shutdown k run KVM_SYSTEM_EVENT_SHUTDOWN).1.online_vcpus =
      k.online_vcpus := by
  constructor
  · simp [kvm_sbi_system_shutdown, kvm_run.system_event_exit, KVM_SYSTEM_EVENT_SHUTDOWN]
  · rfl

theorem find_vcpu_by_id_congr (id : Nat) (l1 : List kvm_vcpu) :
    ∀ l2 : List kvm_vcpu, l1.map (fun w => w.vcpu_id) = l2.map (fun w => w.vcpu_id) →
      find_vcpu_by_id id l1 = find_vcpu_by_id id l2 := by
  induction l1 with
  | nil =>
    intro l2 h
    cases l2 with
    | nil => rfl
    | cons b bs => simp at h
  | cons a as ih =>
    intro l2 h
    cases l2 with
    | nil => simp at h
    | cons b bs =>
      simp only [List.map_cons, List.cons.injEq] at h
      simp only [find_vcpu_by_id, h.1, ih bs h.2]

theorem kvm_get_vcpu_by_id_store (k : kvm) (r : Nat) (v w : kvm_vcpu)
    (hv : k.vcpus[r]? = some v) (hw : w.vcpu_id = v.vcpu_id) (i : Nat) :
    kvm_get_vcpu_by_id (store k r w) i = kvm_get_vcpu_by_id k i := by
  simp only [kvm_get_vcpu_by_id, store]
  apply find_vcpu_by_id_congr
  rw [List.map_take, List.map_take]
  congr 1
  rw [List.map_set, hw]
  apply List.ext_getElem?
  intro n
  by_cases hn : r = n
  · subst hn
    have hlt := lt_length_of_getElem? hv
    rw [List.getElem?_set_self (by simpa using hlt), List.getElem?_map, hv]
    rfl
  · simp [List.getElem?_set_ne hn]

theorem send_ipi_loop_ok_of_resolved (l : List Nat) :
    ∀ k : kvm, (∀ i ∈ l, kvm_get_vcpu_by_id k i ≠ none) →
      ∃ k1, send_ipi_loop l k = .ok k1 := by
  induction l with
  | nil => intro k _; exact ⟨k, rfl⟩
  | cons i rest ih =>
    intro k hl
    obtain ⟨r, v, hg, hv, _⟩ := deref_kvm_get_vcpu_by_id (hl i (by simp))
    have hstep : kvm_riscv_vcpu_set_interrupt k (kvm_get_vcpu_by_id k i) IRQ_VS_SOFT =
        .ok (store k r (set_interrupt IRQ_VS_SOFT v)) := by
      simp [kvm_riscv_vcpu_set_interrupt, hg, deref, hv]
    obtain ⟨k1, hk1⟩ := ih (store k r (set_interrupt IRQ_VS_SOFT v)) (by
      intro j hj
      rw [kvm_get_vcpu_by_id_store k r v (set_interrupt IRQ_VS_SOFT v) hv rfl j]
      exact hl j (by simp [hj]))
    exact ⟨k1, by simp only [send_ipi_loop, hstep, hk1]⟩

theorem send_ipi_loop_error_unknown_hart (l : List Nat) (k : kvm) (e : Fault)
    (h : send_ipi_loop l k = .error e) : ∃ i ∈ l, kvm_get_vcpu_by_id k i = none := by
  by_contra hcon
  simp only [not_exists, not_and] at hcon
  obtain ⟨k1, hk1⟩ := send_ipi_loop_ok_of_resolved l k (fun i hi => hcon i hi)
  rw [hk1] at h
  cases h

theorem fence_loop_error_unknown_hart (l : List Nat) (k : kvm) (cm : cpumask) (e : Fault)
    (h : fence_loop k l cm = .error e) : ∃ i ∈ l, kvm_get_vcpu_by_id k i = none := by
  by_contra hcon
  simp only [not_exists, not_and] at hcon
  obtain ⟨cm1, hcm1, _⟩ := fence_loop_ok k l cm (fun i hi => hcon i hi)
  rw [hcm1] at h
  cases h

theorem kvm_riscv_vcpu_unset_interrupt_of_getElem? (k : kvm) (r irq : Nat) (v : kvm_vcpu)
    (h : k.vcpus[r]? = some v) :
    kvm_riscv_vcpu_unset_interrupt k r irq = store k r (unset_interrupt irq v) := by
  simp [kvm_riscv_vcpu_unset_interrupt, h]

/-- The possible outcomes of one dispatcher call, by case of the `switch`: a forward, a
shutdown, a trap redirect, a delivered send-IPI, a `NULL` fault in one of the two
hart-mask loops (only when a set bit of the mask names no vCPU), or a call handled
locally that changes at most the calling vCPU and
the log. -/
theorem kvm_riscv_vcpu_sbi_ecall_outcome (cfg : Config) (read : unpriv_read_fn)
    (m : Machine) (self : Nat) (vcpu : kvm_vcpu)
    (hself : m.kvm.vcpus[self]? = some vcpu) :
    ((vcpu.arch.guest_context.a7 = SBI_EXT_0_1_CONSOLE_GETCHAR ∨
        vcpu.arch.guest_context.a7 = SBI_EXT_0_1_CONSOLE_PUTCHAR) ∧
      kvm_riscv_vcpu_sbi_ecall cfg read m self =
        .ok (0, ⟨store m.kvm self (kvm_riscv_vcpu_sbi_forward vcpu m.run).1,
          (kvm_riscv_vcpu_sbi_forward vcpu m.run).2, m.log⟩)) ∨
    (vcpu.arch.guest_context.a7 = SBI_EXT_0_1_SHUTDOWN ∧
      kvm_riscv_vcpu_sbi_ecall cfg read m self =
        .ok (0, ⟨(kvm_sbi_system_shutdown m.kvm m.run KVM_SYSTEM_EVENT_SHUTDOWN).1,
          (kvm_sbi_system_shutdown m.kvm m.run KVM_SYSTEM_EVENT_SHUTDOWN).2, m.log⟩)) ∨
    ((vcpu.arch.guest_context.a7 = SBI_EXT_0_1_SEND_IPI ∨
        vcpu.arch.guest_context.a7 = SBI_EXT_0_1_REMOTE_FENCE_I ∨
        vcpu.arch.guest_context.a7 = SBI_EXT_0_1_REMOTE_SFENCE_VMA ∨
        vcpu.arch.guest_context.a7 = SBI_EXT_0_1_REMOTE_SFENCE_VMA_ASID) ∧
      (resolve_hmask cfg read m.kvm vcpu).2.scause ≠ 0 ∧
      kvm_riscv_vcpu_sbi_ecall cfg read m self =
        .ok (1, ⟨m.kvm, m.run, m.log ++ [.kvm_riscv_vcpu_trap_redirect self
          { (resolve_hmask cfg read m.kvm vcpu).2 with
            sepc := vcpu.arch.guest_context.sepc }]⟩)) ∨
    (vcpu.arch.guest_context.a7 = SBI_EXT_0_1_SEND_IPI ∧
      (resolve_hmask cfg read m.kvm vcpu).2.scause = 0 ∧
      ∃ k1 : kvm,
        send_ipi_loop (for_each_set_bit (resolve_hmask cfg read m.kvm vcpu).1 cfg.xlen)
          m.kvm = .ok k1 ∧
        kvm_riscv_vcpu_sbi_ecall cfg read m self =
          .ok (1, ⟨advance_sepc cfg k1 self, m.run, m.log⟩)) ∨
    ((vcpu.arch.guest_context.a7 = SBI_EXT_0_1_SEND_IPI ∨
        vcpu.arch.guest_context.a7 = SBI_EXT_0_1_REMOTE_FENCE_I ∨
        vcpu.arch.guest_context.a7 = SBI_EXT_0_1_REMOTE_SFENCE_VMA ∨
        vcpu.arch.guest_context.a7 = SBI_EXT_0_1_REMOTE_SFENCE_VMA_ASID) ∧
      (resolve_hmask cfg read m.kvm vcpu).2.scause = 0 ∧
      (∃ i, i < cfg.xlen ∧ (resolve_hmask cfg read m.kvm vcpu).1.testBit i = true ∧
        kvm_get_vcpu_by_id m.kvm i = none) ∧
      kvm_riscv_vcpu_sbi_ecall cfg read m self = .error .null_vcpu) ∨
    (¬ (vcpu.arch.guest_context.a7 = SBI_EXT_0_1_CONSOLE_GETCHAR ∨
        vcpu.arch.guest_context.a7 = SBI_EXT_0_1_CONSOLE_PUTCHAR) ∧
      vcpu.arch.guest_context.a7 ≠ SBI_EXT_0_1_SHUTDOWN ∧
      vcpu.arch.guest_context.a7 ≠ SBI_EXT_0_1_SEND_IPI ∧
      ((vcpu.arch.guest_context.a7 = SBI_EXT_0_1_REMOTE_FENCE_I ∨
          vcpu.arch.guest_context.a7 = SBI_EXT_0_1_REMOTE_SFENCE_VMA ∨
          vcpu.arch.guest_context.a7 = SBI_EXT_0_1_REMOTE_SFENCE_VMA_ASID) →
        (resolve_hmask cfg read m.kvm vcpu).2.scause = 0) ∧
      ∃ (w : kvm_vcpu) (effs : List Effect),
        (w = vcpu ∨ w = unset_interrupt IRQ_VS_EXT vcpu ∨
          (w = vcpu.set_a0 (to_ulong cfg SBI_ERR_NOT_SUPPORTED) ∧
            vcpu.arch.guest_context.a7 ∉ legacy_extension_ids ∧
            vcpu.arch.guest_context.a7 ∉ debug_extension_ids cfg)) ∧
        kvm_riscv_vcpu_sbi_ecall cfg read m self =
          .ok (1, ⟨store m.kvm self (w.next_sepc cfg), m.run, m.log ++ effs⟩)) := by
  have hlt := lt_length_of_getElem? hself
  have hadv := advance_sepc_of_getElem? cfg m.kvm self vcpu hself
  have hunset := kvm_riscv_vcpu_unset_interrupt_of_getElem? m.kvm self IRQ_VS_EXT vcpu hself
  have hadvu := advance_sepc_store cfg m.kvm self (unset_interrupt IRQ_VS_EXT vcpu) hlt
  by_cases c1 : vcpu.arch.guest_context.a7 = SBI_EXT_0_1_CONSOLE_GETCHAR ∨
      vcpu.arch.guest_context.a7 = SBI_EXT_0_1_CONSOLE_PUTCHAR
  · left
    refine ⟨c1, ?_⟩
    simp only [kvm_riscv_vcpu_sbi_ecall, hself, sbi_ecall_switch]
    rw [if_pos c1]
    rfl
  by_cases c2 : vcpu.arch.guest_context.a7 = SBI_EXT_0_1_SET_TIMER
  · iterate 5 right
    have n4 : vcpu.arch.guest_context.a7 ≠ SBI_EXT_0_1_SHUTDOWN := by rw [c2]; decide
    have n5 : vcpu.arch.guest_context.a7 ≠ SBI_EXT_0_1_SEND_IPI := by rw [c2]; decide
    refine ⟨c1, n4, n5, ?_, vcpu,
      [.kvm_riscv_vcpu_timer_next_event self (set_timer_next_cycle cfg vcpu.arch.guest_context)],
      Or.inl rfl, ?_⟩
    · intro h; exfalso; rw [c2] at h; revert h; decide
    · simp only [kvm_riscv_vcpu_sbi_ecall, hself, sbi_ecall_switch]
      rw [if_neg c1, if_pos c2]
      simp only [if_true, hadv]
  by_cases c3 : vcpu.arch.guest_context.a7 = SBI_EXT_0_1_CLEAR_IPI
  · iterate 5 right
    have n4 : vcpu.arch.guest_context.a7 ≠ SBI_EXT_0_1_SHUTDOWN := by rw [c3]; decide
    have n5 : vcpu.arch.guest_context.a7 ≠ SBI_EXT_0_1_SEND_IPI := by rw [c3]; decide
    refine ⟨c1, n4, n5, ?_, unset_interrupt IRQ_VS_EXT vcpu, [.csr_write CSR_VSIP 0],
      Or.inr (Or.inl rfl), ?_⟩
    · intro h; exfalso; rw [c3] at h; revert h; decide
    · simp only [kvm_riscv_vcpu_sbi_ecall, hself, sbi_ecall_switch]
      rw [if_neg c1, if_neg c2, if_pos c3]
      simp only [if_true, hunset, hadvu]
  by_cases c4 : vcpu.arch.guest_context.a7 = SBI_EXT_0_1_SEND_IPI
  · by_cases hf : (resolve_hmask cfg read m.kvm vcpu).2.scause = 0
    · cases hloop : send_ipi_loop
          (for_each_set_bit (resolve_hmask cfg read m.kvm vcpu).1 cfg.xlen) m.kvm with
      | ok k1 =>
        iterate 3 right
        left
        refine ⟨c4, hf, k1, rfl, ?_⟩
        simp only [kvm_riscv_vcpu_sbi_ecall, hself, sbi_ecall_switch]
        rw [if_neg c1, if_neg c2, if_neg c3, if_pos c4]
        simp only [hf, hloop, ne_eq, not_true_eq_false, if_false, if_true]
      | error e =>
        have he := send_ipi_loop_error _ _ _ hloop
        subst he
        obtain ⟨i, hi, hnone⟩ := send_ipi_loop_error_unknown_hart _ _ _ hloop
        rw [mem_for_each_set_bit] at hi
        iterate 4 right
        left
        refine ⟨Or.inl c4, hf, ⟨i, hi.1, hi.2, hnone⟩, ?_⟩
        simp only [kvm_riscv_vcpu_sbi_ecall, hself, sbi_ecall_switch]
        rw [if_neg c1, if_neg c2, if_neg c3, if_pos c4]
        simp only [hf, hloop, ne_eq, not_true_eq_false, if_false]
    · iterate 2 right
      left
      refine ⟨Or.inl c4, hf, ?_⟩
      simp only [kvm_riscv_vcpu_sbi_ecall, hself, sbi_ecall_switch]
      rw [if_neg c1, if_neg c2, if_neg c3, if_pos c4]
      simp only [hf, ne_eq, not_false_eq_true, if_true, Bool.false_eq_true, if_false]
  by_cases c5 : vcpu.arch.guest_context.a7 = SBI_EXT_0_1_SHUTDOWN
  · right; left
    refine ⟨c5, ?_⟩
    simp only [kvm_riscv_vcpu_sbi_ecall, hself, sbi_ecall_switch]
    rw [if_neg c1, if_neg c2, if_neg c3, if_neg c4, if_pos c5]
    rfl
  by_cases c6 : vcpu.arch.guest_context.a7 = SBI_EXT_0_1_REMOTE_FENCE_I ∨
      vcpu.arch.guest_context.a7 = SBI_EXT_0_1_REMOTE_SFENCE_VMA ∨
      vcpu.arch.guest_context.a7 = SBI_EXT_0_1_REMOTE_SFENCE_VMA_ASID
  · by_cases hf : (resolve_hmask cfg read m.kvm vcpu).2.scause = 0
    · cases hloop : fence_loop m.kvm
          (for_each_set_bit (resolve_hmask cfg read m.kvm vcpu).1 cfg.xlen) ∅ with
      | ok cm =>
        iterate 5 right
        refine ⟨c1, c5, c4, fun _ => hf, vcpu,
          [fence_request vcpu.arch.guest_context (riscv_cpuid_to_hartid_mask cfg cm)],
          Or.inl rfl, ?_⟩
        simp only [kvm_riscv_vcpu_sbi_ecall, hself, sbi_ecall_switch]
        rw [if_neg c1, if_neg c2, if_neg c3, if_neg c4, if_neg c5, if_pos c6]
        simp only [hf, hloop, ne_eq, not_true_eq_false, if_false, if_true, hadv]
      | error e =>
        have he := fence_loop_error _ _ _ _ hloop
        subst he
        obtain ⟨i, hi, hnone⟩ := fence_loop_error_unknown_hart _ _ _ _ hloop
        rw [mem_for_each_set_bit] at hi
        iterate 4 right
        left
        refine ⟨Or.inr c6, hf, ⟨i, hi.1, hi.2, hnone⟩, ?_⟩
        simp only [kvm_riscv_vcpu_sbi_ecall, hself, sbi_ecall_switch]
        rw [if_neg c1, if_neg c2, if_neg c3, if_neg c4, if_neg c5, if_pos c6]
        simp only [hf, hloop, ne_eq, not_true_eq_false, if_false]
    · iterate 2 right
      left
      refine ⟨Or.inr c6, hf, ?_⟩
      simp only [kvm_riscv_vcpu_sbi_ecall, hself, sbi_ecall_switch]
      rw [if_neg c1, if_neg c2, if_neg c3, if_neg c4, if_neg c5, if_pos c6]
      simp only [hf, ne_eq, not_false_eq_true, if_true, Bool.false_eq_true, if_false]
  iterate 5 right
  refine ⟨c1, c5, c4, fun h => absurd h c6, ?_⟩
  by_cases d1 : vcpu.arch.guest_context.a7 = cfg.SBI_EXT_0_1_DEBUG_START
  · refine ⟨vcpu, [.debug_start], Or.inl rfl, ?_⟩
    simp only [kvm_riscv_vcpu_sbi_ecall, hself, sbi_ecall_switch]
    rw [if_neg c1, if_neg c2, if_neg c3, if_neg c4, if_neg c5, if_neg c6, if_pos d1]
    simp only [if_true, hadv]
  by_cases d2 : vcpu.arch.guest_context.a7 = cfg.SBI_EXT_0_1_DEBUG_END
  · refine ⟨vcpu, [.debug_end], Or.inl rfl, ?_⟩
    simp only [kvm_riscv_vcpu_sbi_ecall, hself, sbi_ecall_switch]
    rw [if_neg c1, if_neg c2, if_neg c3, if_neg c4, if_neg c5, if_neg c6, if_neg d1, if_pos d2]
    simp only [if_true, hadv]
  by_cases d3 : vcpu.arch.guest_context.a7 = SBI_TEST_TIMING_START
  · refine ⟨vcpu, [.test_timing_start], Or.inl rfl, ?_⟩
    simp only [kvm_riscv_vcpu_sbi_ecall, hself, sbi_ecall_switch]
    rw [if_neg c1, if_neg c2, if_neg c3, if_neg c4, if_neg c5, if_neg c6, if_neg d1, if_neg d2,
      if_pos d3]
    simp only [if_true, hadv]
  by_cases d4 : vcpu.arch.guest_context.a7 = SBI_TEST_TIMING_END
  · refine ⟨vcpu, [.test_timing_end], Or.inl rfl, ?_⟩
    simp only [kvm_riscv_vcpu_sbi_ecall, hself, sbi_ecall_switch]
    rw [if_neg c1, if_neg c2, if_neg c3, if_neg c4, if_neg c5, if_neg c6, if_neg d1, if_neg d2,
      if_neg d3, if_pos d4]
    simp only [if_true, hadv]
  by_cases d5 : vcpu.arch.guest_context.a7 = SBI_TEST_SEND_PRINT
  · refine ⟨vcpu, [.test_send_print vcpu.arch.guest_context.a0 vcpu.arch.guest_context.a1
      vcpu.arch.guest_context.a2 vcpu.arch.guest_context.a3], Or.inl rfl, ?_⟩
    simp only [kvm_riscv_vcpu_sbi_ecall, hself, sbi_ecall_switch]
    rw [if_neg c1, if_neg c2, if_neg c3, if_neg c4, if_neg c5, if_neg c6, if_neg d1, if_neg d2,
      if_neg d3, if_neg d4, if_pos d5]
    simp only [if_true, hadv]
  by_cases d6 : vcpu.arch.guest_context.a7 = SBI_TEST_RECV_PRINT
  · refine ⟨vcpu, [.test_recv_print vcpu.arch.guest_context.a0 vcpu.arch.guest_context.a1
      vcpu.arch.guest_context.a2 vcpu.arch.guest_context.a3, .csr_write CSR_VSIP 0],
      Or.inl rfl, ?_⟩
    simp only [kvm_riscv_vcpu_sbi_ecall, hself, sbi_ecall_switch]
    rw [if_neg c1, if_neg c2, if_neg c3, if_neg c4, if_neg c5, if_neg c6, if_neg d1, if_neg d2,
      if_neg d3, if_neg d4, if_neg d5, if_pos d6]
    simp only [if_true, hadv]
  by_cases d7 : vcpu.arch.guest_context.a7 = SBI_TEST_LOCAL_SBI
  · refine ⟨unset_interrupt IRQ_VS_EXT vcpu,
      [.vplic_sm_store 0 0, .csr_write CSR_VSIP 0, .vplic_thread_start self],
      Or.inr (Or.inl rfl), ?_⟩
    simp only [kvm_riscv_vcpu_sbi_ecall, hself, sbi_ecall_switch]
    rw [if_neg c1, if_neg c2, if_neg c3, if_neg c4, if_neg c5, if_neg c6, if_neg d1, if_neg d2,
      if_neg d3, if_neg d4, if_neg d5, if_neg d6, if_pos d7]
    simp only [if_true, hunset, hadvu]
  · have hleg : vcpu.arch.guest_context.a7 ∉ legacy_extension_ids := by
      simp only [legacy_extension_ids, List.mem_cons, List.mem_singleton, List.mem_nil_iff,
        or_false, not_or]
      simp only [not_or] at c1 c6
      exact ⟨c1.1, c1.2, c2, c3, c4, c5, c6.1, c6.2.1, c6.2.2⟩
    have hdbg : vcpu.arch.guest_context.a7 ∉ debug_extension_ids cfg := by
      simp only [debug_extension_ids, List.mem_cons, List.mem_singleton, List.mem_nil_iff,
        or_false, not_or]
      exact ⟨d1, d2, d3, d4, d5, d6, d7⟩
    refine ⟨vcpu.set_a0 (to_ulong cfg SBI_ERR_NOT_SUPPORTED), [],
      Or.inr (Or.inr ⟨rfl, hleg, hdbg⟩), ?_⟩
    simp only [kvm_riscv_vcpu_sbi_ecall, hself, sbi_ecall_switch]
    rw [if_neg c1, if_neg c2, if_neg c3, if_neg c4, if_neg c5, if_neg c6, if_neg d1, if_neg d2,
      if_neg d3, if_neg d4, if_neg d5, if_neg d6, if_neg d7]
    simp only [if_true, advance_sepc_store cfg m.kvm self _ hlt, List.append_nil]
    rfl

theorem store_getElem?_ne (k : kvm) (r j : Nat) (v : kvm_vcpu) (h : j ≠ r) :
    (store k r v).vcpus[j]? = k.vcpus[j]? := by
  simp [store, List.getElem?_set_ne (Ne.symm h)]

theorem kvm_for_each_vcpu_length (k : kvm) (f : kvm_vcpu → kvm_vcpu) :
    (kvm_for_each_vcpu k f).vcpus.length = k.vcpus.length := by
  simp only [kvm_for_each_vcpu, List.length_append, List.length_map, List.length_take,
    List.length_drop]
  omega

theorem kvm_sbi_system_shutdown_length (k : kvm) (run : kvm_run) (type : Nat) :
    (kvm_sbi_system_shutdown k run type).1.vcpus.length = k.vcpus.length := by
  simp only [kvm_sbi_system_shutdown, kvm_make_all_cpus_request]
  rw [kvm_for_each_vcpu_length, kvm_for_each_vcpu_length]

theorem kvm_sbi_system_shutdown_vcpu (k : kvm) (run : kvm_run) (j : Nat) (v : kvm_vcpu)
    (h : k.vcpus[j]? = some v) :
    ∃ v1, (kvm_sbi_system_shutdown k run KVM_SYSTEM_EVENT_SHUTDOWN).1.vcpus[j]? = some v1 ∧
      (v1 = v ∨ v1 = v.powered_off) := by
  rw [kvm_sbi_system_shutdown_getElem?, h]
  by_cases hj : j < k.online_vcpus
  · exact ⟨v.powered_off, by simp [hj], Or.inr rfl⟩
  · exact ⟨v, by simp [hj], Or.inl rfl⟩

theorem send_ipi_loop_length (l : List Nat) :
    ∀ (k k1 : kvm), send_ipi_loop l k = .ok k1 → k1.vcpus.length = k.vcpus.length := by
  induction l with
  | nil =>
    intro k k1 h
    simp only [send_ipi_loop, Except.ok.injEq] at h
    subst h
    rfl
  | cons i rest ih =>
    intro k k1 h
    simp only [send_ipi_loop] at h
    cases hs : kvm_riscv_vcpu_set_interrupt k (kvm_get_vcpu_by_id k i) IRQ_VS_SOFT with
    | error e1 => rw [hs] at h; simp at h
    | ok k2 =>
      rw [hs] at h
      obtain ⟨r, v, _, hk2⟩ := kvm_riscv_vcpu_set_interrupt_ok hs
      rw [ih k2 k1 h, hk2]
      simp [store]

theorem send_ipi_loop_vcpu (l : List Nat) (k k1 : kvm) (h : send_ipi_loop l k = .ok k1)
    (j : Nat) (v : kvm_vcpu) (hv : k.vcpus[j]? = some v) :
    ∃ v1, k1.vcpus[j]? = some v1 ∧ (v1 = v ∨ v1 = set_interrupt IRQ_VS_SOFT v) := by
  rcases (send_ipi_loop_pointwise l k k1 h).2 j with h1 | h1
  · exact ⟨v, by rw [h1, hv], Or.inl rfl⟩
  · exact ⟨set_interrupt IRQ_VS_SOFT v, by rw [h1, hv]; rfl, Or.inr rfl⟩

/-- What one dispatcher call does to each vCPU.  A call either ends in the `NULL` fault
of a hart-mask loop, which needs a set bit of the mask that names no vCPU, or it
returns; when it returns, the online count and the number of
vCPUs are as before, every vCPU other than the caller is as before except for the
pending software interrupt (send-IPI) or the power-off flag and sleep request
(shutdown), and the caller is described by the case of the `switch` that ran. -/
theorem kvm_riscv_vcpu_sbi_ecall_pointwise (cfg : Config) (read : unpriv_read_fn)
    (m : Machine) (self : Nat) (vcpu : kvm_vcpu)
    (hself : m.kvm.vcpus[self]? = some vcpu) :
    (kvm_riscv_vcpu_sbi_ecall cfg read m self = .error .null_vcpu ∧
      (vcpu.arch.guest_context.a7 = SBI_EXT_0_1_SEND_IPI ∨
        vcpu.arch.guest_context.a7 = SBI_EXT_0_1_REMOTE_FENCE_I ∨
        vcpu.arch.guest_context.a7 = SBI_EXT_0_1_REMOTE_SFENCE_VMA ∨
        vcpu.arch.guest_context.a7 = SBI_EXT_0_1_REMOTE_SFENCE_VMA_ASID) ∧
      (resolve_hmask cfg read m.kvm vcpu).2.scause = 0 ∧
      ∃ i, i < cfg.xlen ∧ (resolve_hmask cfg read m.kvm vcpu).1.testBit i = true ∧
        kvm_get_vcpu_by_id m.kvm i = none) ∨
    ∃ (ret : Int) (m1 : Machine) (v1 : kvm_vcpu),
      kvm_riscv_vcpu_sbi_ecall cfg read m self = .ok (ret, m1) ∧
      m1.kvm.online_vcpus = m.kvm.online_vcpus ∧
      m1.kvm.vcpus.length = m.kvm.vcpus.length ∧
      m1.kvm.vcpus[self]? = some v1 ∧
      (∀ (j : Nat) (v : kvm_vcpu), j ≠ self → m.kvm.vcpus[j]? = some v →
        ∃ w, m1.kvm.vcpus[j]? = some w ∧
          (w = v ∨
            (vcpu.arch.guest_context.a7 = SBI_EXT_0_1_SEND_IPI ∧
              w = set_interrupt IRQ_VS_SOFT v) ∨
            (vcpu.arch.guest_context.a7 = SBI_EXT_0_1_SHUTDOWN ∧ w = v.powered_off))) ∧
      (((vcpu.arch.guest_context.a7 = SBI_EXT_0_1_CONSOLE_GETCHAR ∨
            vcpu.arch.guest_context.a7 = SBI_EXT_0_1_CONSOLE_PUTCHAR) ∧
          ret = 0 ∧ v1 = (kvm_riscv_vcpu_sbi_forward vcpu m.run).1 ∧
          m1.run = (kvm_riscv_vcpu_sbi_forward vcpu m.run).2 ∧ m1.log = m.log) ∨
        (vcpu.arch.guest_context.a7 = SBI_EXT_0_1_SHUTDOWN ∧ ret = 0 ∧
          (v1 = vcpu ∨ v1 = vcpu.powered_off) ∧
          m1.run = m.run.system_event_exit KVM_SYSTEM_EVENT_SHUTDOWN ∧ m1.log = m.log) ∨
        ((vcpu.arch.guest_context.a7 = SBI_EXT_0_1_SEND_IPI ∨
            vcpu.arch.guest_context.a7 = SBI_EXT_0_1_REMOTE_FENCE_I ∨
            vcpu.arch.guest_context.a7 = SBI_EXT_0_1_REMOTE_SFENCE_VMA ∨
            vcpu.arch.guest_context.a7 = SBI_EXT_0_1_REMOTE_SFENCE_VMA_ASID) ∧
          (resolve_hmask cfg read m.kvm vcpu).2.scause ≠ 0 ∧ ret = 1 ∧ v1 = vcpu ∧
          m1.run = m.run) ∨
        (vcpu.arch.guest_context.a7 = SBI_EXT_0_1_SEND_IPI ∧
          (resolve_hmask cfg read m.kvm vcpu).2.scause = 0 ∧ ret = 1 ∧
          (v1 = vcpu.next_sepc cfg ∨
            v1 = (set_interrupt IRQ_VS_SOFT vcpu).next_sepc cfg) ∧
          m1.run = m.run ∧ m1.log = m.log) ∨
        (¬ (vcpu.arch.guest_context.a7 = SBI_EXT_0_1_CONSOLE_GETCHAR ∨
            vcpu.arch.guest_context.a7 = SBI_EXT_0_1_CONSOLE_PUTCHAR) ∧
          vcpu.arch.guest_context.a7 ≠ SBI_EXT_0_1_SHUTDOWN ∧
          vcpu.arch.guest_context.a7 ≠ SBI_EXT_0_1_SEND_IPI ∧
          ((vcpu.arch.guest_context.a7 = SBI_EXT_0_1_REMOTE_FENCE_I ∨
              vcpu.arch.guest_context.a7 = SBI_EXT_0_1_REMOTE_SFENCE_VMA ∨
              vcpu.arch.guest_context.a7 = SBI_EXT_0_1_REMOTE_SFENCE_VMA_ASID) →
            (resolve_hmask cfg read m.kvm vcpu).2.scause = 0) ∧
          ret = 1 ∧ m1.run = m.run ∧
          ∃ w : kvm_vcpu,
            (w = vcpu ∨ w = unset_interrupt IRQ_VS_EXT vcpu ∨
              (w = vcpu.set_a0 (to_ulong cfg SBI_ERR_NOT_SUPPORTED) ∧
                vcpu.arch.guest_context.a7 ∉ legacy_extension_ids ∧
                vcpu.arch.guest_context.a7 ∉ debug_extension_ids cfg)) ∧
            v1 = w.next_sepc cfg)) := by
  have hlt := lt_length_of_getElem? hself
  rcases kvm_riscv_vcpu_sbi_ecall_outcome cfg read m self vcpu hself with
    ⟨hc, he⟩ | ⟨hc, he⟩ | ⟨hc, hf, he⟩ | ⟨hc, hf, k1, hk1, he⟩ |
    ⟨hc, hf, hex, he⟩ |
    ⟨h1, h2, h3, h4, w, effs, hw, he⟩
  · right
    refine ⟨_, _, _, he, rfl, by simp [store], store_getElem? _ _ _ hlt, ?_,
      Or.inl ⟨hc, rfl, rfl, rfl, rfl⟩⟩
    intro j v hj hv
    exact ⟨v, by rw [store_getElem?_ne _ _ _ _ hj]; exact hv, Or.inl rfl⟩
  · right
    obtain ⟨v1, hv1, hv1e⟩ := kvm_sbi_system_shutdown_vcpu m.kvm m.run self vcpu hself
    refine ⟨_, _, v1, he, rfl,
      kvm_sbi_system_shutdown_length m.kvm m.run KVM_SYSTEM_EVENT_SHUTDOWN, hv1, ?_,
      Or.inr (Or.inl ⟨hc, rfl, hv1e, (kvm_sbi_system_shutdown_run m.kvm m.run).1, rfl⟩)⟩
    intro j v _ hv
    obtain ⟨w, hw, hwe⟩ := kvm_sbi_system_shutdown_vcpu m.kvm m.run j v hv
    refine ⟨w, hw, ?_⟩
    rcases hwe with e | e
    · exact Or.inl e
    · exact Or.inr (Or.inr ⟨hc, e⟩)
  · right
    refine ⟨_, _, vcpu, he, rfl, rfl, hself, ?_,
      Or.inr (Or.inr (Or.inl ⟨hc, hf, rfl, rfl, rfl⟩))⟩
    intro j v _ hv
    exact ⟨v, hv, Or.inl rfl⟩
  · right
    obtain ⟨w, hw, hwe⟩ := send_ipi_loop_vcpu _ _ _ hk1 self vcpu hself
    have hlen := send_ipi_loop_length _ _ _ hk1
    have hlt1 : self < k1.vcpus.length := by omega
    have hadv := advance_sepc_of_getElem? cfg k1 self w hw
    refine ⟨_, _, w.next_sepc cfg, he, ?_, ?_, ?_, ?_,
      Or.inr (Or.inr (Or.inr (Or.inl ⟨hc, hf, rfl, ?_, rfl, rfl⟩)))⟩
    · rw [hadv]
      exact (send_ipi_loop_pointwise _ _ _ hk1).1
    · rw [hadv]
      simpa [store] using hlen
    · rw [hadv]
      exact store_getElem? _ _ _ hlt1
    · intro j v hj hv
      obtain ⟨u, hu, hue⟩ := send_ipi_loop_vcpu _ _ _ hk1 j v hv
      refine ⟨u, ?_, ?_⟩
      · rw [hadv, store_getElem?_ne _ _ _ _ hj]
        exact hu
      · rcases hue with e | e
        · exact Or.inl e
        · exact Or.inr (Or.inl ⟨hc, e⟩)
    · rcases hwe with e | e
      · exact Or.inl (by rw [e])
      · exact Or.inr (by rw [e])
  · left
    exact ⟨he, hc, hf, hex⟩
  · right
    refine ⟨_, _, w.next_sepc cfg, he, rfl, by simp [store], store_getElem? _ _ _ hlt, ?_,
      Or.inr (Or.inr (Or.inr (Or.inr ⟨h1, h2, h3, h4, rfl, rfl, w, hw, rfl⟩)))⟩
    intro j v hj hv
    exact ⟨v, by rw [store_getElem?_ne _ _ _ _ hj]; exact hv, Or.inl rfl⟩

/-! ## Clear-IPI -/

theorem testBit_clear_bit (nr word i : Nat) :
    (clear_bit nr word).testBit i = (word.testBit i && !decide (nr = i)) := by
  simp only [clear_bit, Nat.testBit_xor, Nat.testBit_and, Nat.one_shiftLeft,
    Nat.testBit_two_pow]
  cases word.testBit i <;> cases decide (nr = i) <;> rfl

/-- What clear-IPI does: the call returns 1, writes 0 to the `vsip` CSR, clears the
pending flag of the external interrupt `IRQ_VS_EXT` on the caller and advances its
`sepc`; the pending flag of the software interrupt `IRQ_VS_SOFT` is the one from
before. -/
theorem clear_ipi_effect (cfg : Config) (read : unpriv_read_fn) (m : Machine)
    (self : Nat) (vcpu : kvm_vcpu)
    (hself : m.kvm.vcpus[self]? = some vcpu)
    (ha7 : vcpu.arch.guest_context.a7 = SBI_EXT_0_1_CLEAR_IPI) :
    kvm_riscv_vcpu_sbi_ecall cfg read m self =
      .ok (1, ⟨store m.kvm self ((unset_interrupt IRQ_VS_EXT vcpu).next_sepc cfg), m.run,
        m.log ++ [.csr_write CSR_VSIP 0]⟩) ∧
    ((unset_interrupt IRQ_VS_EXT vcpu).next_sepc cfg).arch.irqs_pending.testBit IRQ_VS_SOFT =
      vcpu.arch.irqs_pending.testBit IRQ_VS_SOFT ∧
    ((unset_interrupt IRQ_VS_EXT vcpu).next_sepc cfg).arch.irqs_pending.testBit IRQ_VS_EXT =
      false := by
  have hlt := lt_length_of_getElem? hself
  have c1 : ¬ (vcpu.arch.guest_context.a7 = SBI_EXT_0_1_CONSOLE_GETCHAR ∨
      vcpu.arch.guest_context.a7 = SBI_EXT_0_1_CONSOLE_PUTCHAR) := by rw [ha7]; decide
  have c2 : ¬ (vcpu.arch.guest_context.a7 = SBI_EXT_0_1_SET_TIMER) := by rw [ha7]; decide
  refine ⟨?_, ?_, ?_⟩
  · simp only [kvm_riscv_vcpu_sbi_ecall, hself, sbi_ecall_switch]
    rw [if_neg c1, if_neg c2, if_pos ha7]
    simp only [if_true, kvm_riscv_vcpu_unset_interrupt_of_getElem? m.kvm self IRQ_VS_EXT
      vcpu hself, advance_sepc_store cfg m.kvm self _ hlt]
  · simp [kvm_vcpu.next_sepc, kvm_vcpu.set_sepc, unset_interrupt, testBit_clear_bit,
      IRQ_VS_EXT, IRQ_VS_SOFT]
  · simp [kvm_vcpu.next_sepc, kvm_vcpu.set_sepc, unset_interrupt, testBit_clear_bit]

/-- C11, the code at a failing input: the only vCPU of a VM sends an IPI to all online
vCPUs (`a0 = 0`), that is to itself, which sets its software interrupt pending; it then
loads `a7` with clear-IPI and calls again.  After the clear-IPI call the software
interrupt `IRQ_VS_SOFT` of the caller is still pending: the call clears `IRQ_VS_EXT`. -/
theorem clear_ipi_keeps_soft_interrupt_pending :
    ∃ (m1 m2 : Machine) (v1 v2 : kvm_vcpu),
      kvm_riscv_vcpu_sbi_ecall ex_cfg64 (ex_read_ok 0)
        (ex_machine1 0 SBI_EXT_0_1_SEND_IPI) 0 = .ok (1, m1) ∧
      m1.kvm.vcpus[0]? = some v1 ∧
      v1.arch.irqs_pending.testBit IRQ_VS_SOFT = true ∧
      kvm_riscv_vcpu_sbi_ecall ex_cfg64 (ex_read_ok 0)
        { m1 with kvm := store m1.kvm 0 (v1.set_a7 SBI_EXT_0_1_CLEAR_IPI) } 0 =
          .ok (1, m2) ∧
      m2.kvm.vcpus[0]? = some v2 ∧
      v2.arch.irqs_pending.testBit IRQ_VS_SOFT = true :=
  ⟨_, _, _, _, rfl, rfl, by decide, rfl, rfl, by decide⟩

/-! ## The forwarded-call exit record -/

/-- C12: the exit record of a forward.  For every vCPU and exit record,
`kvm_riscv_vcpu_sbi_forward` leaves an exit record whose reason is the SBI exit, whose
extension id is `a7`, whose function id is `a6`, whose six arguments are `a0 .. a5` in
that order and whose two result slots hold `a0` and `a1`; the register context of the
vCPU (`a0 .. a7`, `sepc` and the rest) is unchanged. -/
theorem sbi_forward_exit_record (vcpu : kvm_vcpu) (run : kvm_run) :
    (kvm_riscv_vcpu_sbi_forward vcpu run).2.exit_reason = KVM_EXIT_RISCV_SBI ∧
    (kvm_riscv_vcpu_sbi_forward vcpu run).2.riscv_sbi =
      { extension_id := vcpu.arch.guest_context.a7
        function_id := vcpu.arch.guest_context.a6
        args_0 := vcpu.arch.guest_context.a0
        args_1 := vcpu.arch.guest_context.a1
        args_2 := vcpu.arch.guest_context.a2
        args_3 := vcpu.arch.guest_context.a3
        args_4 := vcpu.arch.guest_context.a4
        args_5 := vcpu.arch.guest_context.a5
        ret_0 := vcpu.arch.guest_context.a0
        ret_1 := vcpu.arch.guest_context.a1 } ∧
    (kvm_riscv_vcpu_sbi_forward vcpu run).1.arch.guest_context = vcpu.arch.guest_context :=
  ⟨rfl, rfl, rfl⟩

/-! ## The status returned by the dispatcher -/

/-- C13, refuted as stated: a shutdown call returns 0 although nothing is forwarded.
The exit reason is the system-event exit, not the SBI exit, and the return-applied flag
of the caller is still set, as it was before the call. -/
theorem shutdown_returns_zero_without_forward :
    ∃ (m1 : Machine) (v1 : kvm_vcpu),
      kvm_riscv_vcpu_sbi_ecall ex_cfg64 (ex_read_ok 0)
        (ex_machine1 0 SBI_EXT_0_1_SHUTDOWN) 0 = .ok (0, m1) ∧
      m1.run.exit_reason ≠ KVM_EXIT_RISCV_SBI ∧
      m1.kvm.vcpus[0]? = some v1 ∧
      v1.arch.sbi_context.return_handled ≠ 0 :=
  ⟨_, _, rfl, by decide, rfl, by decide⟩

/-- C13, amended: the meaning of the status.  Whenever a dispatcher call returns, the
status is 0 or 1, and it is 0 exactly for the console calls and for shutdown.  After a
console call the exit record is the SBI exit populated from the caller's registers and
the return-applied flag of the caller is clear; after a shutdown the exit record is the
system-event exit of kind shutdown and the return-applied flag of the caller is the one
from before.  Every other call that returns has status 1. -/
theorem sbi_ecall_status (cfg : Config) (read : unpriv_read_fn) (m : Machine)
    (self : Nat) (vcpu : kvm_vcpu) (ret : Int) (m1 : Machine)
    (hself : m.kvm.vcpus[self]? = some vcpu)
    (hret : kvm_riscv_vcpu_sbi_ecall cfg read m self = .ok (ret, m1)) :
    (ret = 0 ∨ ret = 1) ∧
    (ret = 0 ↔ (vcpu.arch.guest_context.a7 = SBI_EXT_0_1_CONSOLE_GETCHAR ∨
      vcpu.arch.guest_context.a7 = SBI_EXT_0_1_CONSOLE_PUTCHAR ∨
      vcpu.arch.guest_context.a7 = SBI_EXT_0_1_SHUTDOWN)) ∧
    ((vcpu.arch.guest_context.a7 = SBI_EXT_0_1_CONSOLE_GETCHAR ∨
        vcpu.arch.guest_context.a7 = SBI_EXT_0_1_CONSOLE_PUTCHAR) →
      m1.run = (kvm_riscv_vcpu_sbi_forward vcpu m.run).2 ∧
      m1.run.exit_reason = KVM_EXIT_RISCV_SBI ∧
      ∃ v1, m1.kvm.vcpus[self]? = some v1 ∧ v1.arch.sbi_context.return_handled = 0) ∧
    (vcpu.arch.guest_context.a7 = SBI_EXT_0_1_SHUTDOWN →
      m1.run.exit_reason = KVM_EXIT_SYSTEM_EVENT ∧
      m1.run.system_event.type = KVM_SYSTEM_EVENT_SHUTDOWN ∧
      ∃ v1, m1.kvm.vcpus[self]? = some v1 ∧
        v1.arch.sbi_context.return_handled = vcpu.arch.sbi_context.return_handled) := by
  have hcs : ¬ (SBI_EXT_0_1_SHUTDOWN = SBI_EXT_0_1_CONSOLE_GETCHAR ∨
      SBI_EXT_0_1_SHUTDOWN = SBI_EXT_0_1_CONSOLE_PUTCHAR) := by decide
  rcases kvm_riscv_vcpu_sbi_ecall_pointwise cfg read m self vcpu hself with
    ⟨he, _, _⟩ | ⟨ret1, m2, v1, he, _, _, hv1, _, hcase⟩
  · rw [he] at hret
    cases hret
  · rw [he] at hret
    simp only [Except.ok.injEq, Prod.mk.injEq] at hret
    obtain ⟨rfl, rfl⟩ := hret
    rcases hcase with ⟨hc, hr, hv, hrun, _⟩ | ⟨hc, hr, hv, hrun, _⟩ |
      ⟨hc, hf, hr, hv, _⟩ |
      ⟨hc, hf, hr, hv, _⟩ | ⟨h1, h2, h3, h4, hr, _, _⟩
    · refine ⟨Or.inl hr, ?_, ?_, ?_⟩
      · constructor
        · intro _
          rcases hc with h | h
          · exact Or.inl h
          · exact Or.inr (Or.inl h)
        · intro _; exact hr
      · intro _
        exact ⟨hrun, by rw [hrun]; rfl, v1, hv1, by rw [hv]; rfl⟩
      · intro h
        rw [h] at hc
        exact absurd hc hcs
    · refine ⟨Or.inl hr, ?_, ?_, ?_⟩
      · constructor
        · intro _; exact Or.inr (Or.inr hc)
        · intro _; exact hr
      · intro h
        rw [hc] at h
        exact absurd h hcs
      · intro _
        refine ⟨by rw [hrun]; rfl, by rw [hrun]; rfl, v1, hv1, ?_⟩
        rcases hv with e | e
        · rw [e]
        · rw [e]
          rfl
    · have hn : ¬ (vcpu.arch.guest_context.a7 = SBI_EXT_0_1_CONSOLE_GETCHAR ∨
          vcpu.arch.guest_context.a7 = SBI_EXT_0_1_CONSOLE_PUTCHAR ∨
          vcpu.arch.guest_context.a7 = SBI_EXT_0_1_SHUTDOWN) := by
        rcases hc with h | h | h | h <;> rw [h] <;> decide
      refine ⟨Or.inr hr, ?_, ?_, ?_⟩
      · constructor
        · intro h0; rw [hr] at h0; exact absurd h0 (by decide)
        · intro h; exact absurd h hn
      · intro h
        exact absurd (h.elim Or.inl (fun x => Or.inr (Or.inl x))) hn
      · intro h
        exact absurd (Or.inr (Or.inr h)) hn
    · have hn : ¬ (vcpu.arch.guest_context.a7 = SBI_EXT_0_1_CONSOLE_GETCHAR ∨
          vcpu.arch.guest_context.a7 = SBI_EXT_0_1_CONSOLE_PUTCHAR ∨
          vcpu.arch.guest_context.a7 = SBI_EXT_0_1_SHUTDOWN) := by
        rw [hc]; decide
      refine ⟨Or.inr hr, ?_, ?_, ?_⟩
      · constructor
        · intro h0; rw [hr] at h0; exact absurd h0 (by decide)
        · intro h; exact absurd h hn
      · intro h
        exact absurd (h.elim Or.inl (fun x => Or.inr (Or.inl x))) hn
      · intro h
        exact absurd (Or.inr (Or.inr h)) hn
    · refine ⟨Or.inr hr, ?_, ?_, ?_⟩
      · constructor
        · intro h0; rw [hr] at h0; exact absurd h0 (by decide)
        · intro h
          rcases h with h | h | h
          · exact absurd (Or.inl h) h1
          · exact absurd (Or.inr h) h1
          · exact absurd h h2
      · intro h
        exact absurd h h1
      · intro h
        exact absurd h h2

/-- Instance of the amended C13: console-putchar from the only vCPU of a VM returns 0
with the SBI exit. -/
theorem sbi_ecall_status_witness :
    ∃ m1 : Machine,
      kvm_riscv_vcpu_sbi_ecall ex_cfg64 (ex_read_ok 0)
        (ex_machine1 65 SBI_EXT_0_1_CONSOLE_PUTCHAR) 0 = .ok (0, m1) ∧
      ((0 : Int) = 0 ∨ (0 : Int) = 1) ∧
      ((0 : Int) = 0 ↔ (SBI_EXT_0_1_CONSOLE_PUTCHAR = SBI_EXT_0_1_CONSOLE_GETCHAR ∨
        SBI_EXT_0_1_CONSOLE_PUTCHAR = SBI_EXT_0_1_CONSOLE_PUTCHAR ∨
        SBI_EXT_0_1_CONSOLE_PUTCHAR = SBI_EXT_0_1_SHUTDOWN)) ∧
      m1.run.exit_reason = KVM_EXIT_RISCV_SBI :=
  have h := sbi_ecall_status ex_cfg64 (ex_read_ok 0)
    (ex_machine1 65 SBI_EXT_0_1_CONSOLE_PUTCHAR) 0 (ex_vcpu 0 3 65 SBI_EXT_0_1_CONSOLE_PUTCHAR)
    0 _ rfl rfl
  ⟨_, rfl, h.1, h.2.1, (h.2.2.1 (Or.inr rfl)).2.1⟩

/-! ## The program counter after a call -/

/-- The change of `sepc` made by a dispatcher call that returns.  For every machine and
every value of `a7`, a call either ends in the `NULL` fault of a hart-mask loop (possible
only for send-IPI and the remote fences, when the mask was read without a fault and one
of its set bits names no vCPU), or it returns, and then `sepc` of the caller is the
trap-time `sepc` when the call is a console forward, a shutdown, or a send-IPI or remote
fence whose hart-mask read faulted, and is the trap-time `sepc` plus 4 modulo `2 ^ xlen`
in every other case.  The first alternative is not empty. -/
theorem sbi_ecall_sepc_change (cfg : Config) (read : unpriv_read_fn) (m : Machine)
    (self : Nat) (vcpu : kvm_vcpu)
    (hself : m.kvm.vcpus[self]? = some vcpu) :
    (kvm_riscv_vcpu_sbi_ecall cfg read m self = .error .null_vcpu ∧
      (vcpu.arch.guest_context.a7 = SBI_EXT_0_1_SEND_IPI ∨
        vcpu.arch.guest_context.a7 = SBI_EXT_0_1_REMOTE_FENCE_I ∨
        vcpu.arch.guest_context.a7 = SBI_EXT_0_1_REMOTE_SFENCE_VMA ∨
        vcpu.arch.guest_context.a7 = SBI_EXT_0_1_REMOTE_SFENCE_VMA_ASID) ∧
      (resolve_hmask cfg read m.kvm vcpu).2.scause = 0 ∧
      ∃ i, i < cfg.xlen ∧ (resolve_hmask cfg read m.kvm vcpu).1.testBit i = true ∧
        kvm_get_vcpu_by_id m.kvm i = none) ∨
    ∃ (ret : Int) (m1 : Machine) (v1 : kvm_vcpu),
      kvm_riscv_vcpu_sbi_ecall cfg read m self = .ok (ret, m1) ∧
      m1.kvm.vcpus[self]? = some v1 ∧
      (((vcpu.arch.guest_context.a7 = SBI_EXT_0_1_CONSOLE_GETCHAR ∨
            vcpu.arch.guest_context.a7 = SBI_EXT_0_1_CONSOLE_PUTCHAR) ∨
          vcpu.arch.guest_context.a7 = SBI_EXT_0_1_SHUTDOWN ∨
          ((vcpu.arch.guest_context.a7 = SBI_EXT_0_1_SEND_IPI ∨
              vcpu.arch.guest_context.a7 = SBI_EXT_0_1_REMOTE_FENCE_I ∨
              vcpu.arch.guest_context.a7 = SBI_EXT_0_1_REMOTE_SFENCE_VMA ∨
              vcpu.arch.guest_context.a7 = SBI_EXT_0_1_REMOTE_SFENCE_VMA_ASID) ∧
            (resolve_hmask cfg read m.kvm vcpu).2.scause ≠ 0)) →
        v1.arch.guest_context.sepc = vcpu.arch.guest_context.sepc) ∧
      (¬ ((vcpu.arch.guest_context.a7 = SBI_EXT_0_1_CONSOLE_GETCHAR ∨
            vcpu.arch.guest_context.a7 = SBI_EXT_0_1_CONSOLE_PUTCHAR) ∨
          vcpu.arch.guest_context.a7 = SBI_EXT_0_1_SHUTDOWN ∨
          ((vcpu.arch.guest_context.a7 = SBI_EXT_0_1_SEND_IPI ∨
              vcpu.arch.guest_context.a7 = SBI_EXT_0_1_REMOTE_FENCE_I ∨
              vcpu.arch.guest_context.a7 = SBI_EXT_0_1_REMOTE_SFENCE_VMA ∨
              vcpu.arch.guest_context.a7 = SBI_EXT_0_1_REMOTE_SFENCE_VMA_ASID) ∧
            (resolve_hmask cfg read m.kvm vcpu).2.scause ≠ 0)) →
        v1.arch.guest_context.sepc =
          (vcpu.arch.guest_context.sepc + 4) % 2 ^ cfg.xlen) := by
  rcases kvm_riscv_vcpu_sbi_ecall_pointwise cfg read m self vcpu hself with
    hfault | ⟨ret, m1, v1, he, _, _, hv1, _, hcase⟩
  · exact Or.inl hfault
  · right
    refine ⟨ret, m1, v1, he, hv1, ?_⟩
    rcases hcase with ⟨hc, _, hv, _, _⟩ | ⟨hc, _, hv, _, _⟩ | ⟨hc, hf, _, hv, _⟩ |
      ⟨hc, hf, _, hv, _⟩ | ⟨h1, h2, h3, h4, _, _, w, hw, hv⟩
    · exact ⟨fun _ => by rw [hv]; rfl, fun hn => absurd (Or.inl hc) hn⟩
    · refine ⟨fun _ => ?_, fun hn => absurd (Or.inr (Or.inl hc)) hn⟩
      rcases hv with e | e
      · rw [e]
      · rw [e]
        rfl
    · exact ⟨fun _ => by rw [hv], fun hn => absurd (Or.inr (Or.inr ⟨hc, hf⟩)) hn⟩
    · have hsepc : v1.arch.guest_context.sepc =
          (vcpu.arch.guest_context.sepc + 4) % 2 ^ cfg.xlen := by
        rcases hv with e | e
        · rw [e]
          rfl
        · rw [e]
          rfl
      refine ⟨fun h => ?_, fun _ => hsepc⟩
      exfalso
      rcases h with h | h | ⟨_, h⟩
      · rw [hc] at h
        revert h
        decide
      · rw [hc] at h
        revert h
        decide
      · exact h hf
    · have hsepc : v1.arch.guest_context.sepc =
          (vcpu.arch.guest_context.sepc + 4) % 2 ^ cfg.xlen := by
        rw [hv]
        rcases hw with e | e | ⟨e, _⟩
        · rw [e]
          rfl
        · rw [e]
          rfl
        · rw [e]
          rfl
      refine ⟨fun h => ?_, fun _ => hsepc⟩
      exfalso
      rcases h with h | h | ⟨h, hne⟩
      · exact h1 h
      · exact h2 h
      · rcases h with h | h
        · exact h3 h
        · exact hne (h4 h)

/-- A set-timer call on a 64-bit build returns and leaves `sepc` at `0x1000 + 4`. -/
theorem sbi_ecall_sepc_change_set_timer :
    ∃ (ret : Int) (m1 : Machine) (v1 : kvm_vcpu),
      kvm_riscv_vcpu_sbi_ecall ex_cfg64 (ex_read_ok 0)
        (ex_machine1 5 SBI_EXT_0_1_SET_TIMER) 0 = .ok (ret, m1) ∧
      m1.kvm.vcpus[0]? = some v1 ∧
      v1.arch.guest_context.sepc = (0x1000 + 4) % 2 ^ 64 := by
  rcases sbi_ecall_sepc_change ex_cfg64 (ex_read_ok 0) (ex_machine1 5 SBI_EXT_0_1_SET_TIMER) 0
    (ex_vcpu 0 3 5 SBI_EXT_0_1_SET_TIMER) rfl with h | ⟨ret, m1, v1, he, hv1, _, h4⟩
  · exact absurd h.2.1 (by decide)
  · exact ⟨ret, m1, v1, he, hv1, h4 (by decide)⟩

/-- C14, the code at a failing input: the only vCPU of a VM (logical id 0, trap-time
`sepc = 0x1000`) calls send-IPI with `a0 = 0x8000`; the read of the hart mask at that
address succeeds and yields the word 2, whose only set bit names hart 1.  The call is
no console forward and no shutdown and its hart-mask read did not fault, so it is none
of the calls that leave `sepc` alone and `sepc` would have to become `0x1004`.  The run
ends in the `NULL` dereference of the send-IPI loop, before `cp->sepc += 4`: the
dispatcher returns no value and no state in which `sepc` is advanced. -/
theorem send_ipi_unknown_hart_sepc_not_advanced :
    (ex_machine1 0x8000 SBI_EXT_0_1_SEND_IPI).kvm.vcpus[0]? =
      some (ex_vcpu 0 3 0x8000 SBI_EXT_0_1_SEND_IPI) ∧
    (ex_vcpu 0 3 0x8000 SBI_EXT_0_1_SEND_IPI).arch.guest_context.sepc = 0x1000 ∧
    ¬ (((ex_vcpu 0 3 0x8000 SBI_EXT_0_1_SEND_IPI).arch.guest_context.a7 =
            SBI_EXT_0_1_CONSOLE_GETCHAR ∨
          (ex_vcpu 0 3 0x8000 SBI_EXT_0_1_SEND_IPI).arch.guest_context.a7 =
            SBI_EXT_0_1_CONSOLE_PUTCHAR) ∨
        (ex_vcpu 0 3 0x8000 SBI_EXT_0_1_SEND_IPI).arch.guest_context.a7 =
          SBI_EXT_0_1_SHUTDOWN ∨
        (resolve_hmask ex_cfg64 (ex_read_ok 2) (ex_machine1 0x8000 SBI_EXT_0_1_SEND_IPI).kvm
          (ex_vcpu 0 3 0x8000 SBI_EXT_0_1_SEND_IPI)).2.scause ≠ 0) ∧
    kvm_riscv_vcpu_sbi_ecall ex_cfg64 (ex_read_ok 2)
      (ex_machine1 0x8000 SBI_EXT_0_1_SEND_IPI) 0 = .error .null_vcpu ∧
    ∀ (ret : Int) (m1 : Machine),
      kvm_riscv_vcpu_sbi_ecall ex_cfg64 (ex_read_ok 2)
        (ex_machine1 0x8000 SBI_EXT_0_1_SEND_IPI) 0 ≠ .ok (ret, m1) :=
  ⟨rfl, rfl, by decide, rfl, fun _ _ h => by
    have e : kvm_riscv_vcpu_sbi_ecall ex_cfg64 (ex_read_ok 2)
        (ex_machine1 0x8000 SBI_EXT_0_1_SEND_IPI) 0 = .error .null_vcpu := rfl
    rw [e] at h
    cases h⟩

/-! ## Frame of a dispatcher call -/

/-- C15: what a call may change outside the caller.  For every machine and every value
of `a7`, a call either ends in the `NULL` fault of a hart-mask loop (send-IPI and remote
fences only, when a set bit of a successfully read mask names no vCPU), or it returns,
and then the online count and the number of vCPUs are as before, every vCPU keeps its
logical id, and every vCPU other than the caller keeps its register context and is
either exactly as before, or as before with the software interrupt set pending (only
for send-IPI), or as before with the power-off flag set and the sleep request posted
(only for shutdown). -/
theorem sbi_ecall_frame_other_vcpus (cfg : Config) (read : unpriv_read_fn) (m : Machine)
    (self : Nat) (vcpu : kvm_vcpu)
    (hself : m.kvm.vcpus[self]? = some vcpu) :
    (kvm_riscv_vcpu_sbi_ecall cfg read m self = .error .null_vcpu ∧
      (vcpu.arch.guest_context.a7 = SBI_EXT_0_1_SEND_IPI ∨
        vcpu.arch.guest_context.a7 = SBI_EXT_0_1_REMOTE_FENCE_I ∨
        vcpu.arch.guest_context.a7 = SBI_EXT_0_1_REMOTE_SFENCE_VMA ∨
        vcpu.arch.guest_context.a7 = SBI_EXT_0_1_REMOTE_SFENCE_VMA_ASID) ∧
      (resolve_hmask cfg read m.kvm vcpu).2.scause = 0 ∧
      ∃ i, i < cfg.xlen ∧ (resolve_hmask cfg read m.kvm vcpu).1.testBit i = true ∧
        kvm_get_vcpu_by_id m.kvm i = none) ∨
    ∃ (ret : Int) (m1 : Machine),
      kvm_riscv_vcpu_sbi_ecall cfg read m self = .ok (ret, m1) ∧
      m1.kvm.online_vcpus = m.kvm.online_vcpus ∧
      m1.kvm.vcpus.length = m.kvm.vcpus.length ∧
      (∀ (j : Nat) (v : kvm_vcpu), m.kvm.vcpus[j]? = some v →
        ∃ w, m1.kvm.vcpus[j]? = some w ∧ w.vcpu_id = v.vcpu_id) ∧
      (∀ (j : Nat) (v : kvm_vcpu), j ≠ self → m.kvm.vcpus[j]? = some v →
        ∃ w, m1.kvm.vcpus[j]? = some w ∧
          w.arch.guest_context = v.arch.guest_context ∧
          (w = v ∨
            (vcpu.arch.guest_context.a7 = SBI_EXT_0_1_SEND_IPI ∧
              w = set_interrupt IRQ_VS_SOFT v) ∨
            (vcpu.arch.guest_context.a7 = SBI_EXT_0_1_SHUTDOWN ∧ w = v.powered_off))) := by
  rcases kvm_riscv_vcpu_sbi_ecall_pointwise cfg read m self vcpu hself with
    hfault | ⟨ret, m1, v1, he, ho, hlen, hv1, hothers, hcase⟩
  · exact Or.inl hfault
  · right
    have hframe : ∀ (j : Nat) (v : kvm_vcpu), j ≠ self → m.kvm.vcpus[j]? = some v →
        ∃ w, m1.kvm.vcpus[j]? = some w ∧
          w.arch.guest_context = v.arch.guest_context ∧
          (w = v ∨
            (vcpu.arch.guest_context.a7 = SBI_EXT_0_1_SEND_IPI ∧
              w = set_interrupt IRQ_VS_SOFT v) ∨
            (vcpu.arch.guest_context.a7 = SBI_EXT_0_1_SHUTDOWN ∧ w = v.powered_off)) := by
      intro j v hj hv
      obtain ⟨w, hw, hwe⟩ := hothers j v hj hv
      refine ⟨w, hw, ?_, hwe⟩
      rcases hwe with e | ⟨_, e⟩ | ⟨_, e⟩
      · rw [e]
      · rw [e]
        rfl
      · rw [e]
        rfl
    refine ⟨ret, m1, he, ho, hlen, ?_, hframe⟩
    intro j v hv
    by_cases hj : j = self
    · subst hj
      rw [hself] at hv
      cases hv
      refine ⟨v1, hv1, ?_⟩
      rcases hcase with ⟨_, _, e, _, _⟩ | ⟨_, _, e, _, _⟩ | ⟨_, _, _, e, _⟩ |
        ⟨_, _, _, e, _⟩ | ⟨_, _, _, _, _, _, w, hw, e⟩
      · rw [e]
        rfl
      · rcases e with e | e
        · rw [e]
        · rw [e]
          rfl
      · rw [e]
      · rcases e with e | e
        · rw [e]
          rfl
        · rw [e]
          rfl
      · rw [e]
        rcases hw with e | e | ⟨e, _⟩
        · rw [e]
          rfl
        · rw [e]
          rfl
        · rw [e]
          rfl
    · obtain ⟨w, hw, hg, hwe⟩ := hframe j v hj hv
      refine ⟨w, hw, ?_⟩
      rcases hwe with e | ⟨_, e⟩ | ⟨_, e⟩
      · rw [e]
      · rw [e]
        rfl
      · rw [e]
        rfl

/-- Instance of C15: a shutdown called by vCPU 0 of a two-vCPU VM returns; vCPU 1 keeps
its register context. -/
theorem sbi_ecall_frame_other_vcpus_witness :
    ∃ (ret : Int) (m1 : Machine) (w : kvm_vcpu),
      kvm_riscv_vcpu_sbi_ecall ex_cfg64 (ex_read_ok 0)
        (ex_machine2 0 SBI_EXT_0_1_SHUTDOWN) 0 = .ok (ret, m1) ∧
      m1.kvm.online_vcpus = 2 ∧
      m1.kvm.vcpus.length = 2 ∧
      m1.kvm.vcpus[1]? = some w ∧
      w.arch.guest_context = (ex_vcpu 1 (-1) 0 0).arch.guest_context := by
  rcases sbi_ecall_frame_other_vcpus ex_cfg64 (ex_read_ok 0)
    (ex_machine2 0 SBI_EXT_0_1_SHUTDOWN) 0 (ex_vcpu 0 3 0 SBI_EXT_0_1_SHUTDOWN) rfl with
    h | ⟨ret, m1, he, ho, hlen, _, hframe⟩
  · exact absurd h.2.1 (by decide)
  · obtain ⟨w, hw, hg, _⟩ := hframe 1 (ex_vcpu 1 (-1) 0 0) (by decide) rfl
    exact ⟨ret, m1, w, he, ho, hlen, hw, hg⟩

/-! ## Round trip of a forwarded call -/

/-- C17: forward and completion with an untouched exit record.  When `a7` of the caller
is console-getchar or console-putchar, the call returns 0, and completing it with the
exit record exactly as the call left it returns 0 and leaves the caller's register
context equal to the trap-time context except for `sepc`, which is the trap-time `sepc`
plus 4; in particular `a0 .. a7` are the trap-time values.  The return-applied flag is
set afterwards. -/
theorem console_round_trip (cfg : Config) (read : unpriv_read_fn) (m : Machine)
    (self : Nat) (vcpu : kvm_vcpu)
    (hself : m.kvm.vcpus[self]? = some vcpu)
    (ha7 : vcpu.arch.guest_context.a7 = SBI_EXT_0_1_CONSOLE_GETCHAR ∨
      vcpu.arch.guest_context.a7 = SBI_EXT_0_1_CONSOLE_PUTCHAR) :
    ∃ (m1 : Machine) (v1 : kvm_vcpu),
      kvm_riscv_vcpu_sbi_ecall cfg read m self = .ok (0, m1) ∧
      m1.kvm.vcpus[self]? = some v1 ∧
      (kvm_riscv_vcpu_sbi_return cfg v1 m1.run).1 = 0 ∧
      (kvm_riscv_vcpu_sbi_return cfg v1 m1.run).2.arch.guest_context =
        { vcpu.arch.guest_context with
          sepc := (vcpu.arch.guest_context.sepc + 4) % 2 ^ cfg.xlen } ∧
      (kvm_riscv_vcpu_sbi_return cfg v1 m1.run).2.arch.sbi_context.return_handled = 1 := by
  have hlt := lt_length_of_getElem? hself
  refine ⟨⟨store m.kvm self (kvm_riscv_vcpu_sbi_forward vcpu m.run).1,
    (kvm_riscv_vcpu_sbi_forward vcpu m.run).2, m.log⟩,
    (kvm_riscv_vcpu_sbi_forward vcpu m.run).1, ?_, store_getElem? _ _ _ hlt, ?_, ?_, ?_⟩
  · simp only [kvm_riscv_vcpu_sbi_ecall, hself, sbi_ecall_switch, ha7, if_true]
    rfl
  · simp [kvm_riscv_vcpu_sbi_return, kvm_riscv_vcpu_sbi_forward]
  · simp [kvm_riscv_vcpu_sbi_return, kvm_riscv_vcpu_sbi_forward, ulong_add]
  · simp [kvm_riscv_vcpu_sbi_return, kvm_riscv_vcpu_sbi_forward]

/-- Instance of C17: console-getchar from the only vCPU of a VM on a 64-bit build. -/
theorem console_round_trip_witness :
    ∃ (m1 : Machine) (v1 : kvm_vcpu),
      kvm_riscv_vcpu_sbi_ecall ex_cfg64 (ex_read_ok 0)
        (ex_machine1 0 SBI_EXT_0_1_CONSOLE_GETCHAR) 0 = .ok (0, m1) ∧
      m1.kvm.vcpus[0]? = some v1 ∧
      (kvm_riscv_vcpu_sbi_return ex_cfg64 v1 m1.run).1 = 0 ∧
      (kvm_riscv_vcpu_sbi_return ex_cfg64 v1 m1.run).2.arch.guest_context =
        { (ex_vcpu 0 3 0 SBI_EXT_0_1_CONSOLE_GETCHAR).arch.guest_context with
          sepc := (0x1000 + 4) % 2 ^ 64 } ∧
      (kvm_riscv_vcpu_sbi_return ex_cfg64 v1 m1.run).2.arch.sbi_context.return_handled = 1 :=
  console_round_trip ex_cfg64 (ex_read_ok 0) (ex_machine1 0 SBI_EXT_0_1_CONSOLE_GETCHAR) 0
    (ex_vcpu 0 3 0 SBI_EXT_0_1_CONSOLE_GETCHAR) rfl (Or.inl rfl)

/-! ## Registers of the caller -/

/-- C18: the argument registers of the caller.  For every machine and every value of
`a7`, a call either ends in the `NULL` fault of a hart-mask loop (send-IPI and remote
fences only, when a set bit of a successfully read mask names no vCPU), or it returns,
and then `a1 .. a7` of the caller are the trap-time values and `a0` is either the
trap-time value or `SBI_ERR_NOT_SUPPORTED`, the latter only when `a7` is none of the ids
with a `case` of their own; for every legacy id, among them set-timer, clear-IPI,
send-IPI and the remote fences, `a0` is the trap-time value. -/
theorem sbi_ecall_caller_registers (cfg : Config) (read : unpriv_read_fn) (m : Machine)
    (self : Nat) (vcpu : kvm_vcpu)
    (hself : m.kvm.vcpus[self]? = some vcpu) :
    (kvm_riscv_vcpu_sbi_ecall cfg read m self = .error .null_vcpu ∧
      (vcpu.arch.guest_context.a7 = SBI_EXT_0_1_SEND_IPI ∨
        vcpu.arch.guest_context.a7 = SBI_EXT_0_1_REMOTE_FENCE_I ∨
        vcpu.arch.guest_context.a7 = SBI_EXT_0_1_REMOTE_SFENCE_VMA ∨
        vcpu.arch.guest_context.a7 = SBI_EXT_0_1_REMOTE_SFENCE_VMA_ASID) ∧
      (resolve_hmask cfg read m.kvm vcpu).2.scause = 0 ∧
      ∃ i, i < cfg.xlen ∧ (resolve_hmask cfg read m.kvm vcpu).1.testBit i = true ∧
        kvm_get_vcpu_by_id m.kvm i = none) ∨
    ∃ (ret : Int) (m1 : Machine) (v1 : kvm_vcpu),
      kvm_riscv_vcpu_sbi_ecall cfg read m self = .ok (ret, m1) ∧
      m1.kvm.vcpus[self]? = some v1 ∧
      v1.arch.guest_context.a1 = vcpu.arch.guest_context.a1 ∧
      v1.arch.guest_context.a2 = vcpu.arch.guest_context.a2 ∧
      v1.arch.guest_context.a3 = vcpu.arch.guest_context.a3 ∧
      v1.arch.guest_context.a4 = vcpu.arch.guest_context.a4 ∧
      v1.arch.guest_context.a5 = vcpu.arch.guest_context.a5 ∧
      v1.arch.guest_context.a6 = vcpu.arch.guest_context.a6 ∧
      v1.arch.guest_context.a7 = vcpu.arch.guest_context.a7 ∧
      (v1.arch.guest_context.a0 = vcpu.arch.guest_context.a0 ∨
        (v1.arch.guest_context.a0 = to_ulong cfg SBI_ERR_NOT_SUPPORTED ∧
          vcpu.arch.guest_context.a7 ∉ legacy_extension_ids ∧
          vcpu.arch.guest_context.a7 ∉ debug_extension_ids cfg)) ∧
      (vcpu.arch.guest_context.a7 ∈ legacy_extension_ids →
        v1.arch.guest_context.a0 = vcpu.arch.guest_context.a0) := by
  rcases kvm_riscv_vcpu_sbi_ecall_pointwise cfg read m self vcpu hself with
    hfault | ⟨ret, m1, v1, he, _, _, hv1, _, hcase⟩
  · exact Or.inl hfault
  · right
    refine ⟨ret, m1, v1, he, hv1, ?_⟩
    have hsame : ∀ u : kvm_vcpu, u.arch.guest_context = vcpu.arch.guest_context ∨
        u.arch.guest_context = (vcpu.next_sepc cfg).arch.guest_context →
        u.arch.guest_context.a1 = vcpu.arch.guest_context.a1 ∧
        u.arch.guest_context.a2 = vcpu.arch.guest_context.a2 ∧
        u.arch.guest_context.a3 = vcpu.arch.guest_context.a3 ∧
        u.arch.guest_context.a4 = vcpu.arch.guest_context.a4 ∧
        u.arch.guest_context.a5 = vcpu.arch.guest_context.a5 ∧
        u.arch.guest_context.a6 = vcpu.arch.guest_context.a6 ∧
        u.arch.guest_context.a7 = vcpu.arch.guest_context.a7 ∧
        (u.arch.guest_context.a0 = vcpu.arch.guest_context.a0 ∨
          (u.arch.guest_context.a0 = to_ulong cfg SBI_ERR_NOT_SUPPORTED ∧
            vcpu.arch.guest_context.a7 ∉ legacy_extension_ids ∧
            vcpu.arch.guest_context.a7 ∉ debug_extension_ids cfg)) ∧
        (vcpu.arch.guest_context.a7 ∈ legacy_extension_ids →
          u.arch.guest_context.a0 = vcpu.arch.guest_context.a0) := by
      intro u hu
      rcases hu with e | e
      · rw [e]
        exact ⟨rfl, rfl, rfl, rfl, rfl, rfl, rfl, Or.inl rfl, fun _ => rfl⟩
      · rw [e]
        exact ⟨rfl, rfl, rfl, rfl, rfl, rfl, rfl, Or.inl rfl, fun _ => rfl⟩
    rcases hcase with ⟨_, _, e, _, _⟩ | ⟨_, _, e, _, _⟩ | ⟨_, _, _, e, _⟩ |
      ⟨_, _, _, e, _⟩ | ⟨_, _, _, _, _, _, w, hw, e⟩
    · exact hsame v1 (Or.inl (by rw [e]; rfl))
    · rcases e with e | e
      · exact hsame v1 (Or.inl (by rw [e]))
      · exact hsame v1 (Or.inl (by rw [e]; rfl))
    · exact hsame v1 (Or.inl (by rw [e]))
    · rcases e with e | e
      · exact hsame v1 (Or.inr (by rw [e]))
      · exact hsame v1 (Or.inr (by rw [e]; rfl))
    · rcases hw with hw | hw | ⟨hw, hleg, hdbg⟩
      · exact hsame v1 (Or.inr (by rw [e, hw]))
      · exact hsame v1 (Or.inr (by rw [e, hw]; rfl))
      · rw [e, hw]
        exact ⟨rfl, rfl, rfl, rfl, rfl, rfl, rfl, Or.inr ⟨rfl, hleg, hdbg⟩,
          fun h => absurd h hleg⟩

/-- Instance of C18: a clear-IPI call returns and leaves `a0 .. a7` of the caller at
their trap-time values. -/
theorem sbi_ecall_caller_registers_witness :
    ∃ (ret : Int) (m1 : Machine) (v1 : kvm_vcpu),
      kvm_riscv_vcpu_sbi_ecall ex_cfg64 (ex_read_ok 0)
        (ex_machine1 5 SBI_EXT_0_1_CLEAR_IPI) 0 = .ok (ret, m1) ∧
      m1.kvm.vcpus[0]? = some v1 ∧
      v1.arch.guest_context.a1 = 11 ∧
      v1.arch.guest_context.a7 = SBI_EXT_0_1_CLEAR_IPI ∧
      v1.arch.guest_context.a0 = 5 := by
  rcases sbi_ecall_caller_registers ex_cfg64 (ex_read_ok 0)
    (ex_machine1 5 SBI_EXT_0_1_CLEAR_IPI) 0 (ex_vcpu 0 3 5 SBI_EXT_0_1_CLEAR_IPI) rfl with
    h | ⟨ret, m1, v1, he, hv1, h1, _, _, _, _, _, h7, _, h0⟩
  · exact absurd h.2.1 (by decide)
  · exact ⟨ret, m1, v1, he, hv1, h1, h7, h0 (by decide)⟩

/-! ## The return-applied flag -/

theorem sbi_ecall_return_handled (cfg : Config) (read : unpriv_read_fn) (m : Machine)
    (self : Nat) (vcpu : kvm_vcpu) (ret : Int) (m1 : Machine)
    (hself : m.kvm.vcpus[self]? = some vcpu)
    (hret : kvm_riscv_vcpu_sbi_ecall cfg read m self = .ok (ret, m1)) :
    (∀ (j : Nat) (v : kvm_vcpu), j ≠ self → m.kvm.vcpus[j]? = some v →
      ∃ w, m1.kvm.vcpus[j]? = some w ∧ w.arch.sbi_context = v.arch.sbi_context) ∧
    ∃ v1, m1.kvm.vcpus[self]? = some v1 ∧
      ((vcpu.arch.guest_context.a7 = SBI_EXT_0_1_CONSOLE_GETCHAR ∨
          vcpu.arch.guest_context.a7 = SBI_EXT_0_1_CONSOLE_PUTCHAR) →
        v1.arch.sbi_context.return_handled = 0) ∧
      (¬ (vcpu.arch.guest_context.a7 = SBI_EXT_0_1_CONSOLE_GETCHAR ∨
          vcpu.arch.guest_context.a7 = SBI_EXT_0_1_CONSOLE_PUTCHAR) →
        v1.arch.sbi_context = vcpu.arch.sbi_context) := by
  rcases kvm_riscv_vcpu_sbi_ecall_pointwise cfg read m self vcpu hself with
    ⟨he, _, _⟩ | ⟨ret1, m2, v1, he, _, _, hv1, hothers, hcase⟩
  · rw [he] at hret
    cases hret
  · rw [he] at hret
    simp only [Except.ok.injEq, Prod.mk.injEq] at hret
    obtain ⟨rfl, rfl⟩ := hret
    constructor
    · intro j v hj hv
      obtain ⟨w, hw, hwe⟩ := hothers j v hj hv
      refine ⟨w, hw, ?_⟩
      rcases hwe with e | ⟨_, e⟩ | ⟨_, e⟩
      · rw [e]
      · rw [e]
        rfl
      · rw [e]
        rfl
    · refine ⟨v1, hv1, ?_⟩
      rcases hcase with ⟨hc, _, e, _, _⟩ | ⟨hc, _, e, _, _⟩ | ⟨hc, _, _, e, _⟩ |
        ⟨hc, _, _, e, _⟩ | ⟨h1, _, _, _, _, _, w, hw, e⟩
      · exact ⟨fun _ => by rw [e]; rfl, fun hn => absurd hc hn⟩
      · refine ⟨fun h => ?_, fun _ => ?_⟩
        · exfalso
          rw [hc] at h
          revert h
          decide
        · rcases e with e | e
          · rw [e]
          · rw [e]
            rfl
      · refine ⟨fun h => ?_, fun _ => by rw [e]⟩
        exfalso
        rcases hc with hc | hc | hc | hc <;> rw [hc] at h <;> revert h <;> decide
      · refine ⟨fun h => ?_, fun _ => ?_⟩
        · exfalso
          rw [hc] at h
          revert h
          decide
        · rcases e with e | e
          · rw [e]
            rfl
          · rw [e]
            rfl
      · refine ⟨fun h => absurd h h1, fun _ => ?_⟩
        rw [e]
        rcases hw with hw | hw | ⟨hw, _⟩
        · rw [hw]
          rfl
        · rw [hw]
          rfl
        · rw [hw]
          rfl

theorem run_steps_applies_at_most_once (cfg : Config) (self : Nat) (steps : List Step) :
    ∀ (m m1 : Machine) (n : Nat) (v : kvm_vcpu),
      (∀ s ∈ steps, s.is_forward = false) →
      m.kvm.vcpus[self]? = some v →
      run_steps cfg self steps m = .ok (m1, n) →
      n ≤ 1 ∧ (v.arch.sbi_context.return_handled ≠ 0 → n = 0) := by
  induction steps with
  | nil =>
    intro m m1 n v _ _ h
    simp only [run_steps, Except.ok.injEq, Prod.mk.injEq] at h
    omega
  | cons s rest ih =>
    intro m m1 n v hs hv h
    have hrest : ∀ t ∈ rest, t.is_forward = false := fun t ht => hs t (by simp [ht])
    have hlt := lt_length_of_getElem? hv
    cases s with
    | trap cp read =>
      have hnf : ¬ (cp.a7 = SBI_EXT_0_1_CONSOLE_GETCHAR ∨
          cp.a7 = SBI_EXT_0_1_CONSOLE_PUTCHAR) := by
        have := hs (.trap cp read) (by simp)
        simpa [Step.is_forward] using this
      simp only [run_steps, hv] at h
      cases he : kvm_riscv_vcpu_sbi_ecall cfg read
          { m with kvm := store m.kvm self (v.set_guest_context cp) } self with
      | error e => rw [he] at h; cases h
      | ok r =>
        rw [he] at h
        have hv0 : (store m.kvm self (v.set_guest_context cp)).vcpus[self]? =
            some (v.set_guest_context cp) := store_getElem? _ _ _ hlt
        obtain ⟨_, v1, hv1, _, hkeep⟩ :=
          sbi_ecall_return_handled cfg read _ self _ r.1 r.2 hv0 he
        have hflag : v1.arch.sbi_context = v.arch.sbi_context := hkeep hnf
        have := ih r.2 m1 n v1 hrest hv1 h
        rw [hflag] at this
        exact this
    | completion run =>
      simp only [run_steps, hv] at h
      cases hr : run_steps cfg self rest
          { m with kvm := store m.kvm self (kvm_riscv_vcpu_sbi_return cfg v run).2 } with
      | error e => rw [hr] at h; cases h
      | ok r =>
        rw [hr] at h
        simp only [Except.ok.injEq, Prod.mk.injEq] at h
        obtain ⟨_, hn⟩ := h
        have hv0 : (store m.kvm self (kvm_riscv_vcpu_sbi_return cfg v run).2).vcpus[self]? =
            some (kvm_riscv_vcpu_sbi_return cfg v run).2 := store_getElem? _ _ _ hlt
        have hset : (kvm_riscv_vcpu_sbi_return cfg v run).2.arch.sbi_context.return_handled
            ≠ 0 := by
          by_cases h0 : v.arch.sbi_context.return_handled = 0
          · simp [kvm_riscv_vcpu_sbi_return, h0]
          · simp [kvm_riscv_vcpu_sbi_return, h0]
        have := (ih _ r.1 r.2 _ hrest hv0 hr).2 hset
        by_cases h0 : v.arch.sbi_context.return_handled = 0
        · simp only [h0, if_true] at hn
          exact ⟨by omega, fun h => absurd h0 h⟩
        · simp only [h0, if_false] at hn
          exact ⟨by omega, fun _ => by omega⟩

/-- C16: the life of the return-applied flag.  (1) `kvm_riscv_vcpu_sbi_return` always
leaves the flag set, and when the flag is already set it changes nothing at all, so it
never clears the flag and the flag goes from clear to set only there, together with the
writing of the results.  (2) A dispatcher call that returns leaves the flag of every
vCPU other than the caller unchanged; it clears the flag of the caller when the call is
forwarded (a console call) and leaves it unchanged for every other id.  (3) Along every
sequence of traps and completions on one vCPU that contains no forwarded call, at most
one completion finds the flag clear and writes the results, and none does when the flag
is set at the start. -/
theorem return_handled_flag_life :
    (∀ (cfg : Config) (vcpu : kvm_vcpu) (run : kvm_run),
      (kvm_riscv_vcpu_sbi_return cfg vcpu run).2.arch.sbi_context.return_handled ≠ 0 ∧
      (vcpu.arch.sbi_context.return_handled ≠ 0 →
        (kvm_riscv_vcpu_sbi_return cfg vcpu run).2 = vcpu)) ∧
    (∀ (cfg : Config) (read : unpriv_read_fn) (m : Machine) (self : Nat) (vcpu : kvm_vcpu)
      (ret : Int) (m1 : Machine),
      m.kvm.vcpus[self]? = some vcpu →
      kvm_riscv_vcpu_sbi_ecall cfg read m self = .ok (ret, m1) →
      (∀ (j : Nat) (v : kvm_vcpu), j ≠ self → m.kvm.vcpus[j]? = some v →
        ∃ w, m1.kvm.vcpus[j]? = some w ∧
          w.arch.sbi_context.return_handled = v.arch.sbi_context.return_handled) ∧
      ∃ v1, m1.kvm.vcpus[self]? = some v1 ∧
        ((vcpu.arch.guest_context.a7 = SBI_EXT_0_1_CONSOLE_GETCHAR ∨
            vcpu.arch.guest_context.a7 = SBI_EXT_0_1_CONSOLE_PUTCHAR) →
          v1.arch.sbi_context.return_handled = 0) ∧
        (¬ (vcpu.arch.guest_context.a7 = SBI_EXT_0_1_CONSOLE_GETCHAR ∨
            vcpu.arch.guest_context.a7 = SBI_EXT_0_1_CONSOLE_PUTCHAR) →
          v1.arch.sbi_context.return_handled =
            vcpu.arch.sbi_context.return_handled)) ∧
    (∀ (cfg : Config) (self : Nat) (steps : List Step) (m m1 : Machine) (n : Nat)
      (v : kvm_vcpu),
      (∀ s ∈ steps, s.is_forward = false) →
      m.kvm.vcpus[self]? = some v →
      run_steps cfg self steps m = .ok (m1, n) →
      n ≤ 1 ∧ (v.arch.sbi_context.return_handled ≠ 0 → n = 0)) := by
  refine ⟨?_, ?_, ?_⟩
  · intro cfg vcpu run
    by_cases h0 : vcpu.arch.sbi_context.return_handled = 0
    · simp [kvm_riscv_vcpu_sbi_return, h0]
    · simp [kvm_riscv_vcpu_sbi_return, h0]
  · intro cfg read m self vcpu ret m1 hself hret
    obtain ⟨ho, v1, hv1, hf, hk⟩ :=
      sbi_ecall_return_handled cfg read m self vcpu ret m1 hself hret
    refine ⟨?_, v1, hv1, hf, fun h => by rw [hk h]⟩
    intro j v hj hv
    obtain ⟨w, hw, he⟩ := ho j v hj hv
    exact ⟨w, hw, by rw [he]⟩
  · intro cfg self steps m m1 n v
    exact run_steps_applies_at_most_once cfg self steps m m1 n v

/-- Instance of C16: a pending vCPU receives two completions, with the result words
(7, 8) and (9, 10), and in between calls set-timer; only one of the completions writes
its results. -/
theorem return_handled_flag_life_witness :
    ∃ (m1 : Machine) (n : Nat),
      run_steps ex_cfg64 0
        [.completion (ex_run 7 8),
         .trap (ex_vcpu 0 3 5 SBI_EXT_0_1_SET_TIMER).arch.guest_context (ex_read_ok 0),
         .completion (ex_run 9 10)] ex_machine_pending = .ok (m1, n) ∧
      n ≤ 1 :=
  ⟨_, _, rfl, (return_handled_flag_life.2.2 ex_cfg64 0
    [.completion (ex_run 7 8),
     .trap (ex_vcpu 0 3 5 SBI_EXT_0_1_SET_TIMER).arch.guest_context (ex_read_ok 0),
     .completion (ex_run 9 10)] ex_machine_pending _ _ ex_vcpu_pending
    (by decide) rfl rfl).1⟩

end VcpuSbi
